import Mathlib

/-!
# Verification of the Apillon MCP server's tool registry and dispatch contract

Shallow embedding of the repository's source files:

* `src/src/index.ts`      — top-level router (3 inline storage tools).
* `src/unnamed/part_000`  — storage domain module (`storageTools`, `handleStorageTool`).
* `src/src/hosting.ts`    — hosting domain module (`hostingTools`, `handleHostingTool`).
* `src/unnamed/part_001`  — NFT domain module (`nftTools`, `handleNftTool`) followed by
  an alternate snapshot of the hosting module.

JavaScript objects (argument bags, JSON payloads) are modelled by the `JVal`
type below; zod schemas become explicit parse functions returning `Except`
with a list of per-field issues (zod's `safeParse` collects one issue per
failing field); promise rejection / `throw` becomes the `Except` error
channel; the Apillon SDK, `fetch` and the filesystem are external
collaborators, modelled as function-valued parameters so that theorems can
quantify over every collaborator behaviour.  JSON numbers are modelled as
integers (`Int`); floating-point values are outside the model.
-/

mutual

/-- A JSON-like JavaScript value: the payloads exchanged with collaborators
and the values serialized into response envelopes.  Mutual with its array
and object spines so that structural recursion and induction are available. -/
inductive JVal where
  | null : JVal
  | bool (b : Bool) : JVal
  | num (n : Int) : JVal
  | str (s : String) : JVal
  | arr (items : JArr) : JVal
  | obj (fields : JObj) : JVal

inductive JArr where
  | nil : JArr
  | cons (hd : JVal) (tl : JArr) : JArr

inductive JObj where
  | nil : JObj
  | cons (key : String) (val : JVal) (tl : JObj) : JObj

end

/-- A raw argument bag: the untyped key/value data a `call_tool` request carries. -/
abbrev Bag := List (String × JVal)

/-- Property lookup on a raw bag (JS object property access). -/
def getField (bag : Bag) (k : String) : Option JVal :=
  (bag.find? (fun p => p.1 = k)).map (fun p => p.2)

/-- The kind of one zod validation issue. -/
inductive IssueKind where
  | missing : IssueKind
  | wrongType : IssueKind
  | invalidEnum : IssueKind
deriving DecidableEq, Repr

/-- One per-field zod validation issue. -/
structure Issue where
  path : String
  kind : IssueKind
deriving DecidableEq, Repr

deriving instance DecidableEq for Except

/-- Result of validating one field or a whole bag. -/
abbrev ZResult (α : Type) := Except (List Issue) α

/-- The issues of a field result (none if it succeeded). -/
def zErr {α : Type} : ZResult α → List Issue
  | .error e => e
  | .ok _ => []

/-- Combine two field results, collecting the issues of both (zod's
`safeParse` reports every failing field, not just the first). -/
def zMerge {α β : Type} (a : ZResult α) (b : ZResult β) : ZResult (α × β) :=
  match a, b with
  | .ok x, .ok y => .ok (x, y)
  | a, b => .error (zErr a ++ zErr b)

/-- `z.string()`: required string field. -/
def reqString (bag : Bag) (k : String) : ZResult String :=
  match getField bag k with
  | none => .error [⟨k, .missing⟩]
  | some (.str s) => .ok s
  | some _ => .error [⟨k, .wrongType⟩]

/-- `z.string().optional()`: optional string field. -/
def optString (bag : Bag) (k : String) : ZResult (Option String) :=
  match getField bag k with
  | none => .ok none
  | some (.str s) => .ok (some s)
  | some _ => .error [⟨k, .wrongType⟩]

/-- `z.number()`: required number field. -/
def reqNum (bag : Bag) (k : String) : ZResult Int :=
  match getField bag k with
  | none => .error [⟨k, .missing⟩]
  | some (.num n) => .ok n
  | some _ => .error [⟨k, .wrongType⟩]

/-- `z.number().optional()`: optional number field. -/
def optNum (bag : Bag) (k : String) : ZResult (Option Int) :=
  match getField bag k with
  | none => .ok none
  | some (.num n) => .ok (some n)
  | some _ => .error [⟨k, .wrongType⟩]

/-- `z.number().optional().default(d)`: absent field takes the declared default. -/
def numWithDefault (bag : Bag) (k : String) (d : Int) : ZResult Int :=
  match getField bag k with
  | none => .ok d
  | some (.num n) => .ok n
  | some _ => .error [⟨k, .wrongType⟩]

/-- `z.boolean()`: required boolean field. -/
def reqBool (bag : Bag) (k : String) : ZResult Bool :=
  match getField bag k with
  | none => .error [⟨k, .missing⟩]
  | some (.bool b) => .ok b
  | some _ => .error [⟨k, .wrongType⟩]

/-- `z.boolean().optional()`. -/
def optBool (bag : Bag) (k : String) : ZResult (Option Bool) :=
  match getField bag k with
  | none => .ok none
  | some (.bool b) => .ok (some b)
  | some _ => .error [⟨k, .wrongType⟩]

/-- `z.number().optional().default(d)` with number default `1` etc. shares
`numWithDefault`; `z.enum([...])`: required string drawn from an enumeration. -/
def enumField (bag : Bag) (k : String) (allowed : List String) : ZResult String :=
  match getField bag k with
  | none => .error [⟨k, .missing⟩]
  | some (.str s) => if s ∈ allowed then .ok s else .error [⟨k, .invalidEnum⟩]
  | some _ => .error [⟨k, .wrongType⟩]

/-- Deterministic rendering of a zod issue list, standing in for the string
interpolation of `ZodError` in the handlers' `Invalid arguments for ...`
messages (no claim depends on the exact rendering). -/
def renderIssues (issues : List Issue) : String :=
  String.intercalate "; "
    (issues.map (fun i =>
      i.path ++ ": " ++
        match i.kind with
        | .missing => "required"
        | .wrongType => "invalid type"
        | .invalidEnum => "invalid enum value"))

deriving instance DecidableEq for JVal

/-! ## JSON serialization: `JSON.stringify(value, null, 2)` -/

/-- `indent` spaces. -/
def ind (n : Nat) : List Char := List.replicate n ' '

/-- The decimal digit characters. -/
def digCh : Nat → Char
  | 0 => '0' | 1 => '1' | 2 => '2' | 3 => '3' | 4 => '4'
  | 5 => '5' | 6 => '6' | 7 => '7' | 8 => '8' | _ => '9'

/-- Decimal digits of a natural number, most significant first. -/
def natDigits (n : Nat) : List Char :=
  if _h : n < 10 then [digCh n]
  else natDigits (n / 10) ++ [digCh (n % 10)]
decreasing_by exact Nat.div_lt_self (by omega) (by omega)

/-- Decimal rendering of an integer, as JavaScript renders integral numbers. -/
def intChars (n : Int) : List Char :=
  if n < 0 then '-' :: natDigits (-n).toNat else natDigits n.toNat

/-- Lowercase hexadecimal digit characters. -/
def hexDig : Nat → Char
  | 0 => '0' | 1 => '1' | 2 => '2' | 3 => '3' | 4 => '4'
  | 5 => '5' | 6 => '6' | 7 => '7' | 8 => '8' | 9 => '9'
  | 10 => 'a' | 11 => 'b' | 12 => 'c' | 13 => 'd' | 14 => 'e' | _ => 'f'

/-- The escape `JSON.stringify` applies to one character of a string: quote and
backslash are backslash-escaped, the five named control characters use their
short escapes, any other control character uses a `\u00XX` escape, and every
other character is emitted verbatim. -/
def escChar (c : Char) : List Char :=
  if c = '"' then ['\\', '"']
  else if c = '\\' then ['\\', '\\']
  else if c = '\x08' then ['\\', 'b']
  else if c = '\t' then ['\\', 't']
  else if c = '\n' then ['\\', 'n']
  else if c = '\x0c' then ['\\', 'f']
  else if c = '\r' then ['\\', 'r']
  else if c.toNat < 32 then
    ['\\', 'u', '0', '0', hexDig (c.toNat / 16), hexDig (c.toNat % 16)]
  else [c]

/-- Escape every character of a string body. -/
def escStr : List Char → List Char
  | [] => []
  | c :: cs => escChar c ++ escStr cs

mutual

/-- `JSON.stringify(v, null, 2)` at nesting indentation `i`: members of
arrays and objects are placed on their own lines, indented two further
spaces, exactly as the ECMAScript serializer does with gap `"  "`. -/
def ppVal (i : Nat) : JVal → List Char
  | .num n => intChars n
  | .str s => '"' :: escStr s.data ++ ['"']
  | .null => ['n', 'u', 'l', 'l']
  | .arr .nil => ['[', ']']
  | .bool true => ['t', 'r', 'u', 'e']
  | .arr (.cons x xs) =>
    '[' :: '\n' :: ind (i + 2) ++ ppVal (i + 2) x ++ ppElems (i + 2) xs ++
      '\n' :: ind i ++ [']']
  | .bool false => ['f', 'a', 'l', 's', 'e']
  | .obj .nil => ['\x7b', '\x7d']
  | .obj (.cons k v fs) =>
    '\x7b' :: '\n' :: ind (i + 2) ++ ppField (i + 2) k v ++ ppFields (i + 2) fs ++
      '\n' :: ind i ++ ['\x7d']

/-- Subsequent array elements: `",\n" ++ indent ++ element` for each. -/
def ppElems (i : Nat) : JArr → List Char
  | .nil => []
  | .cons x xs => ',' :: '\n' :: ind i ++ ppVal i x ++ ppElems i xs

/-- One object member: `"key": value`. -/
def ppField (i : Nat) (k : String) (v : JVal) : List Char :=
  '"' :: escStr k.data ++ '"' :: ':' :: ' ' :: ppVal i v

/-- Subsequent object members: `",\n" ++ indent ++ member` for each. -/
def ppFields (i : Nat) : JObj → List Char
  | .nil => []
  | .cons k v fs => ',' :: '\n' :: ind i ++ ppField i k v ++ ppFields i fs

end

/-- The single text block every success envelope carries. -/
def jsonStringify (v : JVal) : String := String.mk (ppVal 0 v)

/-! ## JSON parsing

Modelled from the spec: the round-trip property of §8 reads the serialized
text back "as structured data", i.e. with the standard JSON parser
(`JSON.parse`), which is not part of this repository.  The parser below
implements standard JSON (with numbers restricted to the integers, matching
the integer model of `JVal`), fuel-based for termination. -/

/-- JSON insignificant whitespace. -/
def isWs (c : Char) : Bool := c = ' ' || c = '\n' || c = '\t' || c = '\r'

/-- Drop leading insignificant whitespace. -/
def skipWs : List Char → List Char
  | [] => []
  | c :: cs => if isWs c then skipWs cs else c :: cs

/-- Numeric value of a decimal digit character. -/
def digVal (c : Char) : Nat := c.toNat - 48

/-- Split off the longest prefix of decimal digits. -/
def spanDigits : List Char → List Char × List Char
  | [] => ([], [])
  | c :: cs =>
    if c.isDigit then
      let p := spanDigits cs
      (c :: p.1, p.2)
    else ([], c :: cs)

/-- Read a digit string as a natural number, from an accumulator. -/
def readDigits (acc : Nat) : List Char → Nat
  | [] => acc
  | c :: cs => readDigits (acc * 10 + digVal c) cs

/-- Is this a hexadecimal digit character? -/
def isHex (c : Char) : Bool :=
  c.isDigit || ('a' ≤ c && c ≤ 'f') || ('A' ≤ c && c ≤ 'F')

/-- Numeric value of a hexadecimal digit character. -/
def hexVal (c : Char) : Nat :=
  if c.isDigit then c.toNat - 48
  else if 'a' ≤ c && c ≤ 'f' then c.toNat - 87
  else c.toNat - 55

/-- Parse the body of a JSON string after the opening quote, returning the
decoded characters and the remainder after the closing quote. -/
def pStr : List Char → Option (List Char × List Char)
  | [] => none
  | c :: cs =>
    if c = '"' then some ([], cs)
    else if c = '\\' then
      match cs with
      | [] => none
      | e :: cs2 =>
        if e = '"' then (pStr cs2).map (fun p => ('"' :: p.1, p.2))
        else if e = '\\' then (pStr cs2).map (fun p => ('\\' :: p.1, p.2))
        else if e = '/' then (pStr cs2).map (fun p => ('/' :: p.1, p.2))
        else if e = 'b' then (pStr cs2).map (fun p => ('\x08' :: p.1, p.2))
        else if e = 'f' then (pStr cs2).map (fun p => ('\x0c' :: p.1, p.2))
        else if e = 'n' then (pStr cs2).map (fun p => ('\n' :: p.1, p.2))
        else if e = 'r' then (pStr cs2).map (fun p => ('\r' :: p.1, p.2))
        else if e = 't' then (pStr cs2).map (fun p => ('\t' :: p.1, p.2))
        else if e = 'u' then
          match cs2 with
          | a :: b :: c2 :: d :: cs3 =>
            if isHex a && isHex b && isHex c2 && isHex d then
              (pStr cs3).map (fun p =>
                (Char.ofNat (((hexVal a * 16 + hexVal b) * 16 + hexVal c2) * 16 + hexVal d)
                  :: p.1, p.2))
            else none
          | _ => none
        else none
    else (pStr cs).map (fun p => (c :: p.1, p.2))

mutual

/-- Parse one JSON value (fuel-based recursion). -/
def pVal : Nat → List Char → Option (JVal × List Char)
  | 0, _ => none
  | f + 1, cs =>
    match skipWs cs with
    | [] => none
    | c :: cs' =>
      if c = 'n' then
        match cs' with
        | 'u' :: 'l' :: 'l' :: r => some (.null, r)
        | _ => none
      else if c = 't' then
        match cs' with
        | 'r' :: 'u' :: 'e' :: r => some (.bool true, r)
        | _ => none
      else if c = 'f' then
        match cs' with
        | 'a' :: 'l' :: 's' :: 'e' :: r => some (.bool false, r)
        | _ => none
      else if c = '"' then
        match pStr cs' with
        | some (s, r) => some (.str (String.mk s), r)
        | none => none
      else if c = '[' then
        match skipWs cs' with
        | ']' :: r => some (.arr .nil, r)
        | r =>
          match pElems f r with
          | some (xs, r2) => some (.arr xs, r2)
          | none => none
      else if c = '\x7b' then
        match skipWs cs' with
        | '\x7d' :: r => some (.obj .nil, r)
        | r =>
          match pFields f r with
          | some (fs, r2) => some (.obj fs, r2)
          | none => none
      else if c = '-' then
        match spanDigits cs' with
        | ([], _) => none
        | (ds, r) => some (.num (-(Int.ofNat (readDigits 0 ds))), r)
      else if c.isDigit then
        match spanDigits (c :: cs') with
        | ([], _) => none
        | (ds, r) => some (.num (Int.ofNat (readDigits 0 ds)), r)
      else none

/-- Parse the elements of a non-empty JSON array, and its closing bracket. -/
def pElems : Nat → List Char → Option (JArr × List Char)
  | 0, _ => none
  | f + 1, cs =>
    match pVal f cs with
    | none => none
    | some (v, r) =>
      match skipWs r with
      | ',' :: r2 =>
        match pElems f r2 with
        | some (xs, r3) => some (.cons v xs, r3)
        | none => none
      | ']' :: r2 => some (.cons v .nil, r2)
      | _ => none

/-- Parse the members of a non-empty JSON object, and its closing brace. -/
def pFields : Nat → List Char → Option (JObj × List Char)
  | 0, _ => none
  | f + 1, cs =>
    match skipWs cs with
    | '"' :: r =>
      match pStr r with
      | none => none
      | some (k, r2) =>
        match skipWs r2 with
        | ':' :: r3 =>
          match pVal f r3 with
          | none => none
          | some (v, r4) =>
            match skipWs r4 with
            | ',' :: r5 =>
              match pFields f r5 with
              | some (fs, r6) => some (.cons (String.mk k) v fs, r6)
              | none => none
            | '\x7d' :: r5 => some (.cons (String.mk k) v .nil, r5)
            | _ => none
        | _ => none
    | _ => none

end

/-- `JSON.parse`: parse a complete JSON document (only whitespace may follow). -/
def jsonParse (s : String) : Option JVal :=
  match pVal (s.length + 1) s.data with
  | some (v, rest) => if skipWs rest = [] then some v else none
  | none => none

/-! ## Response envelopes and shared upload plumbing -/

/-- One content block of a Response Envelope (always a text block here). -/
structure ContentBlock where
  blockType : String
  text : String
deriving DecidableEq, Repr

/-- The Response Envelope returned for every tool call:
`{content: [...], isError: boolean}` (success envelopes leave the error
flag unset, modelled as `false`). -/
structure Envelope where
  content : List ContentBlock
  isError : Bool
deriving DecidableEq, Repr

/-- Success envelope: a single pretty-printed text block, error flag unset. -/
def okEnvelope (t : String) : Envelope := ⟨[⟨"text", t⟩], false⟩

/-- Options argument of the SDK `uploadFiles` call. -/
structure UploadFilesOptions where
  directoryPath : String
deriving DecidableEq, Repr

/-- `parsed.data.directoryPath ? { directoryPath: ... } : undefined`
(identical in `src/src/index.ts` and `src/unnamed/part_000`): by JS
truthiness an absent or empty `directoryPath` yields `undefined`. -/
def uploadFileOptions (d : Option String) : Option UploadFilesOptions :=
  match d with
  | some s => if s.isEmpty then none else some ⟨s⟩
  | none => none

/-- One file entry handed to the SDK `uploadFiles` call; `content` is an
opaque stand-in for the Buffer read from disk. -/
structure FileEntry where
  fileName : String
  contentType : String
  content : String
deriving DecidableEq, Repr

/-- `UploadFileArgsSchema` (identical in `src/src/index.ts` and
`src/unnamed/part_000`): `bucketUuid`, `fileName`, `filePath` required
strings, `directoryPath` optional string. -/
structure UploadFileArgs where
  bucketUuid : String
  fileName : String
  filePath : String
  directoryPath : Option String
deriving DecidableEq, Repr

/-- `UploadFileArgsSchema.safeParse`. -/
def parseUploadFile (bag : Bag) : ZResult UploadFileArgs :=
  (zMerge (reqString bag "bucketUuid")
    (zMerge (reqString bag "fileName")
      (zMerge (reqString bag "filePath") (optString bag "directoryPath")))).map
    (fun p => ⟨p.1, p.2.1, p.2.2.1, p.2.2.2⟩)

/-- Payload of `bucket.listObjects` as both the router and the storage module
build it: `{directoryUuid, limit}` (the validated `offset`/`page` is dropped). -/
structure ListObjectsPayload where
  directoryUuid : Option String
  limit : Int
deriving DecidableEq, Repr

/-! ## The top-level router of `src/src/index.ts` -/

namespace Index

/-- `ListBucketsArgsSchema` of `src/src/index.ts`: `limit` defaulting to 10,
`offset` defaulting to 0. -/
structure ListBucketsArgs where
  limit : Int
  offset : Int
deriving DecidableEq, Repr

/-- `ListBucketsArgsSchema.safeParse`. -/
def parseListBuckets (bag : Bag) : ZResult ListBucketsArgs :=
  (zMerge (numWithDefault bag "limit" 10) (numWithDefault bag "offset" 0)).map
    (fun p => ⟨p.1, p.2⟩)

/-- `ListObjectsArgsSchema` of `src/src/index.ts`. -/
structure ListObjectsArgs where
  bucketUuid : String
  directoryUuid : Option String
  limit : Int
  offset : Int
deriving DecidableEq, Repr

/-- `ListObjectsArgsSchema.safeParse`. -/
def parseListObjects (bag : Bag) : ZResult ListObjectsArgs :=
  (zMerge (reqString bag "bucketUuid")
    (zMerge (optString bag "directoryUuid")
      (zMerge (numWithDefault bag "limit" 10) (numWithDefault bag "offset" 0)))).map
    (fun p => ⟨p.1, p.2.1, p.2.2.1, p.2.2.2⟩)

/-- Payload of `apillonStorage.listBuckets` as `index.ts` builds it: only
`{limit}`. -/
structure ListBucketsPayload where
  limit : Int
deriving DecidableEq, Repr

/-- External collaborators of the router: the Apillon storage SDK and the
filesystem, as oracles that either return a value or fail with a message. -/
structure Collab where
  listBuckets : ListBucketsPayload → Except String JVal
  listObjects : String → ListObjectsPayload → Except String JVal
  readFile : String → Except String String
  uploadFiles : String → List FileEntry → Option UploadFilesOptions → Except String JVal

/-- The collaborator phase of `upload_file`: read the whole file, then hand
it to `bucket.uploadFiles` with the truthiness-guarded options. -/
def uploadPhase (d : UploadFileArgs) (c : Collab) : Except String JVal :=
  match c.readFile d.filePath with
  | .error m => .error m
  | .ok buf =>
    c.uploadFiles d.bucketUuid
      [⟨d.fileName, "application/octet-stream", buf⟩]
      (uploadFileOptions d.directoryPath)

/-- The `try` body of the CallToolRequest handler: the `switch` over tool
names.  Failures (validation, collaborator, unknown tool) travel on the
error channel, to be caught by the single boundary in `callTool`. -/
def dispatchTool (name : String) (args : Bag) (c : Collab) : Except String Envelope :=
  if name = "list_buckets" then
    match parseListBuckets args with
    | .error e => .error ("Invalid arguments for list_buckets: " ++ renderIssues e)
    | .ok d =>
      match c.listBuckets ⟨d.limit⟩ with
      | .error m => .error ("Failed to list buckets: " ++ m)
      | .ok buckets => .ok (okEnvelope (jsonStringify buckets))
  else if name = "list_objects" then
    match parseListObjects args with
    | .error e => .error ("Invalid arguments for list_objects: " ++ renderIssues e)
    | .ok d =>
      match c.listObjects d.bucketUuid ⟨d.directoryUuid, d.limit⟩ with
      | .error m => .error ("Failed to list objects: " ++ m)
      | .ok objects => .ok (okEnvelope (jsonStringify objects))
  else if name = "upload_file" then
    match parseUploadFile args with
    | .error e => .error ("Invalid arguments for upload_file: " ++ renderIssues e)
    | .ok d =>
      match uploadPhase d c with
      | .error m => .error ("Failed to upload file: " ++ m)
      | .ok result => .ok (okEnvelope (jsonStringify result))
  else .error ("Unknown tool: " ++ name)

/-- The CallToolRequest handler: the `try` body plus the single `catch` that
converts any failure into `{content:[{type:"text", text:"Error: " + msg}],
isError:true}`. -/
def callTool (name : String) (args : Bag) (c : Collab) : Envelope :=
  match dispatchTool name args c with
  | .ok env => env
  | .error m => ⟨[⟨"text", "Error: " ++ m⟩], true⟩

/-- Names of the three descriptors the ListToolsRequest handler returns. -/
def toolNames : List String := ["list_buckets", "list_objects", "upload_file"]

end Index

/-! ## The storage domain module of `src/unnamed/part_000` -/

namespace StorageD

/-- `CreateBucketArgsSchema`: required `name`, optional `description`. -/
structure CreateBucketArgs where
  name : String
  description : Option String
deriving DecidableEq, Repr

/-- `CreateBucketArgsSchema.safeParse`. -/
def parseCreateBucket (bag : Bag) : ZResult CreateBucketArgs :=
  (zMerge (reqString bag "name") (optString bag "description")).map
    (fun p => ⟨p.1, p.2⟩)

/-- `ListBucketsArgsSchema` of the storage module: `limit` defaulting to 10,
`page` defaulting to 0. -/
structure ListBucketsArgs where
  limit : Int
  page : Int
deriving DecidableEq, Repr

/-- `ListBucketsArgsSchema.safeParse`. -/
def parseListBuckets (bag : Bag) : ZResult ListBucketsArgs :=
  (zMerge (numWithDefault bag "limit" 10) (numWithDefault bag "page" 0)).map
    (fun p => ⟨p.1, p.2⟩)

/-- `ListObjectsArgsSchema` of the storage module (with `page`). -/
structure ListObjectsArgs where
  bucketUuid : String
  directoryUuid : Option String
  limit : Int
  page : Int
deriving DecidableEq, Repr

/-- `ListObjectsArgsSchema.safeParse`. -/
def parseListObjects (bag : Bag) : ZResult ListObjectsArgs :=
  (zMerge (reqString bag "bucketUuid")
    (zMerge (optString bag "directoryUuid")
      (zMerge (numWithDefault bag "limit" 10) (numWithDefault bag "page" 0)))).map
    (fun p => ⟨p.1, p.2.1, p.2.2.1, p.2.2.2⟩)

/-- Payload of `apillonStorage.listBuckets` as `handleStorageTool` builds it:
`{limit, page, status: 5}`. -/
structure ListBucketsPayload where
  limit : Int
  page : Int
  status : Int
deriving DecidableEq, Repr

/-- The object literal the `list_buckets` case passes to the SDK call:
the validated `limit` and `page` plus the fixed `status: 5`. -/
def listBucketsPayload (d : ListBucketsArgs) : ListBucketsPayload :=
  ⟨d.limit, d.page, 5⟩

/-- The validated `list_buckets` arguments, rendered as a JS object's fields. -/
def listBucketsArgsFields (d : ListBucketsArgs) : Bag :=
  [("limit", .num d.limit), ("page", .num d.page)]

/-- The `list_buckets` collaborator payload, rendered as a JS object's fields. -/
def listBucketsPayloadFields (p : ListBucketsPayload) : Bag :=
  [("limit", .num p.limit), ("page", .num p.page), ("status", .num p.status)]

/-- External collaborators of the storage module: `apillonStorage` and the
filesystem. -/
structure Collab where
  createBucket : CreateBucketArgs → Except String JVal
  listBuckets : ListBucketsPayload → Except String JVal
  listObjects : String → ListObjectsPayload → Except String JVal
  readFile : String → Except String String
  uploadFiles : String → List FileEntry → Option UploadFilesOptions → Except String JVal

/-- The collaborator phase of the storage module's `upload_file` case. -/
def uploadPhase (d : UploadFileArgs) (c : Collab) : Except String JVal :=
  match c.readFile d.filePath with
  | .error m => .error m
  | .ok buf =>
    c.uploadFiles d.bucketUuid
      [⟨d.fileName, "application/octet-stream", buf⟩]
      (uploadFileOptions d.directoryPath)

/-- `handleStorageTool`: the storage domain dispatcher.  Validation failures
and collaborator failures are thrown (error channel), converted into an
error envelope by the router's boundary one level up. -/
def handleStorageTool (name : String) (args : Bag) (c : Collab) : Except String Envelope :=
  if name = "create_bucket" then
    match parseCreateBucket args with
    | .error e => .error ("Invalid arguments for create_bucket: " ++ renderIssues e)
    | .ok d =>
      match c.createBucket ⟨d.name, d.description⟩ with
      | .error m => .error ("Failed to create bucket: " ++ m)
      | .ok bucket => .ok (okEnvelope (jsonStringify bucket))
  else if name = "list_buckets" then
    match parseListBuckets args with
    | .error e => .error ("Invalid arguments for list_buckets: " ++ renderIssues e)
    | .ok d =>
      match c.listBuckets (listBucketsPayload d) with
      | .error m => .error ("Failed to list buckets: " ++ m)
      | .ok buckets => .ok (okEnvelope (jsonStringify buckets))
  else if name = "list_objects" then
    match parseListObjects args with
    | .error e => .error ("Invalid arguments for list_objects: " ++ renderIssues e)
    | .ok d =>
      match c.listObjects d.bucketUuid ⟨d.directoryUuid, d.limit⟩ with
      | .error m => .error ("Failed to list objects: " ++ m)
      | .ok objects => .ok (okEnvelope (jsonStringify objects))
  else if name = "upload_file" then
    match parseUploadFile args with
    | .error e => .error ("Invalid arguments for upload_file: " ++ renderIssues e)
    | .ok d =>
      match uploadPhase d c with
      | .error m => .error ("Failed to upload file: " ++ m)
      | .ok result => .ok (okEnvelope (jsonStringify result))
  else .error ("Unknown storage tool: " ++ name)

/-- Names of the four descriptors of `storageTools`. -/
def toolNames : List String :=
  ["create_bucket", "list_buckets", "list_objects", "upload_file"]

end StorageD

/-! ## The hosting domain module of `src/src/hosting.ts` -/

namespace HostingD

/-- The SDK `DeployToEnvironment` enum. -/
inductive DeployToEnvironment where
  | TO_STAGING : DeployToEnvironment
  | DIRECTLY_TO_PRODUCTION : DeployToEnvironment
deriving DecidableEq, Repr

/-- `ListWebsitesArgsSchema`: `limit` defaulting to 10, `page` defaulting to 0. -/
structure ListWebsitesArgs where
  limit : Int
  page : Int
deriving DecidableEq, Repr

/-- `ListWebsitesArgsSchema.safeParse`. -/
def parseListWebsites (bag : Bag) : ZResult ListWebsitesArgs :=
  (zMerge (numWithDefault bag "limit" 10) (numWithDefault bag "page" 0)).map
    (fun p => ⟨p.1, p.2⟩)

/-- `GetWebsiteArgsSchema`: required `uuid`. -/
structure GetWebsiteArgs where
  uuid : String
deriving DecidableEq, Repr

/-- `GetWebsiteArgsSchema.safeParse`. -/
def parseGetWebsite (bag : Bag) : ZResult GetWebsiteArgs :=
  (reqString bag "uuid").map (fun u => ⟨u⟩)

/-- `UploadWebsiteFilesArgsSchema`: required `websiteUuid` and `folderPath`. -/
structure UploadWebsiteFilesArgs where
  websiteUuid : String
  folderPath : String
deriving DecidableEq, Repr

/-- `UploadWebsiteFilesArgsSchema.safeParse`. -/
def parseUploadWebsiteFiles (bag : Bag) : ZResult UploadWebsiteFilesArgs :=
  (zMerge (reqString bag "websiteUuid") (reqString bag "folderPath")).map
    (fun p => ⟨p.1, p.2⟩)

/-- `DeployWebsiteArgsSchema`: required `websiteUuid`, and `environment`
drawn from the enumeration `{staging, production}`. -/
structure DeployWebsiteArgs where
  websiteUuid : String
  environment : String
deriving DecidableEq, Repr

/-- `DeployWebsiteArgsSchema.safeParse`. -/
def parseDeployWebsite (bag : Bag) : ZResult DeployWebsiteArgs :=
  (zMerge (reqString bag "websiteUuid")
    (enumField bag "environment" ["staging", "production"])).map
    (fun p => ⟨p.1, p.2⟩)

/-- `ListDeploymentsArgsSchema`. -/
structure ListDeploymentsArgs where
  websiteUuid : String
  limit : Int
  page : Int
deriving DecidableEq, Repr

/-- `ListDeploymentsArgsSchema.safeParse`. -/
def parseListDeployments (bag : Bag) : ZResult ListDeploymentsArgs :=
  (zMerge (reqString bag "websiteUuid")
    (zMerge (numWithDefault bag "limit" 10) (numWithDefault bag "page" 0))).map
    (fun p => ⟨p.1, p.2.1, p.2.2⟩)

/-- The `environmentMap` lookup table of the `deploy_website` case
(`Record<string, DeployToEnvironment>`). -/
def environmentMap : List (String × DeployToEnvironment) :=
  [("staging", .TO_STAGING), ("production", .DIRECTLY_TO_PRODUCTION)]

/-- Indexing `environmentMap[...]`: `undefined` when the key is absent. -/
def envLookup (s : String) : Option DeployToEnvironment :=
  (environmentMap.find? (fun p => p.1 = s)).map (fun p => p.2)

/-- Payload of `apillonHosting.listWebsites` as `handleHostingTool` builds it:
`{limit, page, status: 5}`. -/
structure ListWebsitesPayload where
  limit : Int
  page : Int
  status : Int
deriving DecidableEq, Repr

/-- Payload of `website.listDeployments`: only `{limit}`. -/
structure ListDeploymentsPayload where
  limit : Int
deriving DecidableEq, Repr

/-- External collaborators of the hosting module: `apillonHosting` and its
website handles. -/
structure Collab where
  listWebsites : ListWebsitesPayload → Except String JVal
  getWebsite : String → Except String JVal
  uploadFromFolder : String → String → Except String Unit
  deploy : String → Option DeployToEnvironment → Except String JVal
  listDeployments : String → ListDeploymentsPayload → Except String JVal

/-- `handleHostingTool`: the hosting domain dispatcher. -/
def handleHostingTool (name : String) (args : Bag) (c : Collab) : Except String Envelope :=
  if name = "list_websites" then
    match parseListWebsites args with
    | .error e => .error ("Invalid arguments for list_websites: " ++ renderIssues e)
    | .ok d =>
      match c.listWebsites ⟨d.limit, d.page, 5⟩ with
      | .error m => .error ("Failed to list websites: " ++ m)
      | .ok websites => .ok (okEnvelope (jsonStringify websites))
  else if name = "get_website" then
    match parseGetWebsite args with
    | .error e => .error ("Invalid arguments for get_website: " ++ renderIssues e)
    | .ok d =>
      match c.getWebsite d.uuid with
      | .error m => .error ("Failed to get website: " ++ m)
      | .ok websiteDetails => .ok (okEnvelope (jsonStringify websiteDetails))
  else if name = "upload_website_files" then
    match parseUploadWebsiteFiles args with
    | .error e => .error ("Invalid arguments for upload_website_files: " ++ renderIssues e)
    | .ok d =>
      match c.uploadFromFolder d.websiteUuid d.folderPath with
      | .error m => .error ("Failed to upload website files: " ++ m)
      | .ok _ =>
        .ok (okEnvelope (jsonStringify
          (.obj (.cons "success" (.bool true)
            (.cons "message" (.str "Files uploaded successfully") .nil)))))
  else if name = "deploy_website" then
    match parseDeployWebsite args with
    | .error e => .error ("Invalid arguments for deploy_website: " ++ renderIssues e)
    | .ok d =>
      match c.deploy d.websiteUuid (envLookup d.environment) with
      | .error m => .error ("Failed to deploy website: " ++ m)
      | .ok deployment => .ok (okEnvelope (jsonStringify deployment))
  else if name = "list_deployments" then
    match parseListDeployments args with
    | .error e => .error ("Invalid arguments for list_deployments: " ++ renderIssues e)
    | .ok d =>
      match c.listDeployments d.websiteUuid ⟨d.limit⟩ with
      | .error m => .error ("Failed to list deployments: " ++ m)
      | .ok deployments => .ok (okEnvelope (jsonStringify deployments))
  else .error ("Unknown hosting tool: " ++ name)

/-- Names of the five descriptors of `hostingTools` in `src/src/hosting.ts`. -/
def toolNames : List String :=
  ["list_websites", "get_website", "upload_website_files", "deploy_website",
    "list_deployments"]

/-- Names of the six descriptors of the alternate `hostingTools` snapshot in
`src/unnamed/part_001` (adds `create_website`). -/
def altToolNames : List String :=
  ["list_websites", "get_website", "create_website", "upload_website_files",
    "deploy_website", "list_deployments"]

end HostingD

/-! ## The NFT domain module of `src/unnamed/part_001` -/

namespace NftD

/-- The SDK `EvmChain` enum (the members the module maps to). -/
inductive EvmChain where
  | MOONBEAM : EvmChain
  | MOONBASE : EvmChain
  | ASTAR : EvmChain
deriving DecidableEq, Repr

/-- The SDK `CollectionType` enum (only `GENERIC` is used). -/
inductive CollectionType where
  | GENERIC : CollectionType
deriving DecidableEq, Repr

/-- `ListCollectionsArgsSchema`: `limit` defaulting to 10, `page` to 0. -/
structure ListCollectionsArgs where
  limit : Int
  page : Int
deriving DecidableEq, Repr

/-- `ListCollectionsArgsSchema.safeParse`. -/
def parseListCollections (bag : Bag) : ZResult ListCollectionsArgs :=
  (zMerge (numWithDefault bag "limit" 10) (numWithDefault bag "page" 0)).map
    (fun p => ⟨p.1, p.2⟩)

/-- `MintNftArgsSchema`: required `collectionUuid`, `quantity` defaulting to 1,
optional `tokenId`. -/
structure MintNftArgs where
  collectionUuid : String
  quantity : Int
  tokenId : Option Int
deriving DecidableEq, Repr

/-- `MintNftArgsSchema.safeParse`. -/
def parseMintNft (bag : Bag) : ZResult MintNftArgs :=
  (zMerge (reqString bag "collectionUuid")
    (zMerge (numWithDefault bag "quantity" 1) (optNum bag "tokenId"))).map
    (fun p => ⟨p.1, p.2.1, p.2.2⟩)

/-- `ListTransactionsArgsSchema`. -/
structure ListTransactionsArgs where
  collectionUuid : String
  limit : Int
  page : Int
deriving DecidableEq, Repr

/-- `ListTransactionsArgsSchema.safeParse`. -/
def parseListTransactions (bag : Bag) : ZResult ListTransactionsArgs :=
  (zMerge (reqString bag "collectionUuid")
    (zMerge (numWithDefault bag "limit" 10) (numWithDefault bag "page" 0))).map
    (fun p => ⟨p.1, p.2.1, p.2.2⟩)

/-- `CreateCollectionArgsSchema`: the validated arguments of
`create_collection` (the `chain` field is the enumerated string). -/
structure CreateCollectionArgs where
  name : String
  symbol : String
  description : Option String
  isRevokable : Bool
  isSoulbound : Bool
  isAutoIncrement : Option Bool
  chain : String
  baseUri : String
  maxSupply : Option Int
  royaltiesAddress : Option String
  royaltiesFees : Int
  drop : Bool
  dropStart : Option Int
  dropPrice : Option Int
  dropReserve : Option Int
deriving DecidableEq, Repr

/-- `CreateCollectionArgsSchema.safeParse`. -/
def parseCreateCollection (bag : Bag) : ZResult CreateCollectionArgs :=
  (zMerge (reqString bag "name")
    (zMerge (reqString bag "symbol")
      (zMerge (optString bag "description")
        (zMerge (reqBool bag "isRevokable")
          (zMerge (reqBool bag "isSoulbound")
            (zMerge (optBool bag "isAutoIncrement")
              (zMerge (enumField bag "chain" ["MOONBEAM", "MOONBASE", "ASTAR"])
                (zMerge (reqString bag "baseUri")
                  (zMerge (optNum bag "maxSupply")
                    (zMerge (optString bag "royaltiesAddress")
                      (zMerge (reqNum bag "royaltiesFees")
                        (zMerge (reqBool bag "drop")
                          (zMerge (optNum bag "dropStart")
                            (zMerge (optNum bag "dropPrice")
                              (optNum bag "dropReserve"))))))))))))))).map
    (fun p =>
      ⟨p.1, p.2.1, p.2.2.1, p.2.2.2.1, p.2.2.2.2.1, p.2.2.2.2.2.1,
        p.2.2.2.2.2.2.1, p.2.2.2.2.2.2.2.1, p.2.2.2.2.2.2.2.2.1,
        p.2.2.2.2.2.2.2.2.2.1, p.2.2.2.2.2.2.2.2.2.2.1,
        p.2.2.2.2.2.2.2.2.2.2.2.1, p.2.2.2.2.2.2.2.2.2.2.2.2.1,
        p.2.2.2.2.2.2.2.2.2.2.2.2.2.1, p.2.2.2.2.2.2.2.2.2.2.2.2.2.2⟩)

/-- The `chainMap` lookup table of the `create_collection` case
(`Record<string, EvmChain>`). -/
def chainMap : List (String × EvmChain) :=
  [("MOONBEAM", .MOONBEAM), ("MOONBASE", .MOONBASE), ("ASTAR", .ASTAR)]

/-- Indexing `chainMap[...]`: `undefined` when the key is absent. -/
def chainLookup (s : String) : Option EvmChain :=
  (chainMap.find? (fun p => p.1 = s)).map (fun p => p.2)

/-- The object literal the `create_collection` case passes to
`apillonNft.create`: the validated fields, with `chain` mapped through
`chainMap` (possibly `undefined`), plus the fixed `collectionType:
CollectionType.GENERIC` and `baseExtension: '.json'`. -/
structure CreateCollectionPayload where
  name : String
  symbol : String
  description : Option String
  isRevokable : Bool
  isSoulbound : Bool
  isAutoIncrement : Option Bool
  chain : Option EvmChain
  collectionType : CollectionType
  baseUri : String
  baseExtension : String
  maxSupply : Option Int
  royaltiesAddress : Option String
  royaltiesFees : Int
  drop : Bool
  dropStart : Option Int
  dropPrice : Option Int
  dropReserve : Option Int
deriving DecidableEq, Repr

/-- Builds the `apillonNft.create` payload from the validated arguments. -/
def createCollectionPayload (d : CreateCollectionArgs) : CreateCollectionPayload :=
  ⟨d.name, d.symbol, d.description, d.isRevokable, d.isSoulbound,
    d.isAutoIncrement, chainLookup d.chain, .GENERIC, d.baseUri, ".json",
    d.maxSupply, d.royaltiesAddress, d.royaltiesFees, d.drop, d.dropStart,
    d.dropPrice, d.dropReserve⟩

/-- `GetCollectionArgsSchema`: required `uuid`. -/
structure GetCollectionArgs where
  uuid : String
deriving DecidableEq, Repr

/-- `GetCollectionArgsSchema.safeParse`. -/
def parseGetCollection (bag : Bag) : ZResult GetCollectionArgs :=
  (reqString bag "uuid").map (fun u => ⟨u⟩)

/-- `BurnNftArgsSchema`: required `collectionUuid` and `tokenId` (a string in
this schema). -/
structure BurnNftArgs where
  collectionUuid : String
  tokenId : String
deriving DecidableEq, Repr

/-- `BurnNftArgsSchema.safeParse`. -/
def parseBurnNft (bag : Bag) : ZResult BurnNftArgs :=
  (zMerge (reqString bag "collectionUuid") (reqString bag "tokenId")).map
    (fun p => ⟨p.1, p.2⟩)

/-- `TransferOwnershipArgsSchema`: required `collectionUuid` and `address`. -/
structure TransferOwnershipArgs where
  collectionUuid : String
  address : String
deriving DecidableEq, Repr

/-- `TransferOwnershipArgsSchema.safeParse`. -/
def parseTransferOwnership (bag : Bag) : ZResult TransferOwnershipArgs :=
  (zMerge (reqString bag "collectionUuid") (reqString bag "address")).map
    (fun p => ⟨p.1, p.2⟩)

/-- Payload of `apillonNft.listCollections` as `handleNftTool` builds it:
`{limit, page, status: 5}`. -/
structure ListCollectionsPayload where
  limit : Int
  page : Int
  status : Int
deriving DecidableEq, Repr

/-- The `mintParams` object of the `mint_nft` case: `{quantity}`, with
`tokenId` added only when the validated `tokenId` is defined. -/
structure MintParams where
  quantity : Int
  tokenId : Option Int
deriving DecidableEq, Repr

/-- Builds `mintParams` from the validated arguments (the conditional
`mintParams.tokenId = tokenId` assignment for a defined `tokenId`). -/
def mintParams (d : MintNftArgs) : MintParams :=
  match d.tokenId with
  | some t => ⟨d.quantity, some t⟩
  | none => ⟨d.quantity, none⟩

/-- Payload of `collection.listTransactions`: only `{limit}`. -/
structure ListTransactionsPayload where
  limit : Int
deriving DecidableEq, Repr

/-- External collaborators of the NFT module: `apillonNft` and its collection
handles. -/
structure Collab where
  listCollections : ListCollectionsPayload → Except String JVal
  getCollection : String → Except String JVal
  create : CreateCollectionPayload → Except String JVal
  mint : String → MintParams → Except String JVal
  burn : String → String → Except String JVal
  transferOwnership : String → String → Except String JVal
  listTransactions : String → ListTransactionsPayload → Except String JVal

/-- `handleNftTool`: the NFT domain dispatcher.  Validation failures and
collaborator failures are thrown (error channel), converted into an error
envelope by the router's boundary one level up. -/
def handleNftTool (name : String) (args : Bag) (c : Collab) : Except String Envelope :=
  if name = "list_collections" then
    match parseListCollections args with
    | .error e => .error ("Invalid arguments for list_collections: " ++ renderIssues e)
    | .ok d =>
      match c.listCollections ⟨d.limit, d.page, 5⟩ with
      | .error m => .error ("Failed to list collections: " ++ m)
      | .ok collections => .ok (okEnvelope (jsonStringify collections))
  else if name = "get_collection" then
    match parseGetCollection args with
    | .error e => .error ("Invalid arguments for get_collection: " ++ renderIssues e)
    | .ok d =>
      match c.getCollection d.uuid with
      | .error m => .error ("Failed to get collection: " ++ m)
      | .ok collectionDetails => .ok (okEnvelope (jsonStringify collectionDetails))
  else if name = "create_collection" then
    match parseCreateCollection args with
    | .error e => .error ("Invalid arguments for create_collection: " ++ renderIssues e)
    | .ok d =>
      match c.create (createCollectionPayload d) with
      | .error m => .error ("Failed to create collection: " ++ m)
      | .ok collection => .ok (okEnvelope (jsonStringify collection))
  else if name = "mint_nft" then
    match parseMintNft args with
    | .error e => .error ("Invalid arguments for mint_nft: " ++ renderIssues e)
    | .ok d =>
      match c.mint d.collectionUuid (mintParams d) with
      | .error m => .error ("Failed to mint NFT: " ++ m)
      | .ok result => .ok (okEnvelope (jsonStringify result))
  else if name = "burn_nft" then
    match parseBurnNft args with
    | .error e => .error ("Invalid arguments for burn_nft: " ++ renderIssues e)
    | .ok d =>
      match c.burn d.collectionUuid d.tokenId with
      | .error m => .error ("Failed to burn NFT: " ++ m)
      | .ok result => .ok (okEnvelope (jsonStringify result))
  else if name = "transfer_ownership" then
    match parseTransferOwnership args with
    | .error e => .error ("Invalid arguments for transfer_ownership: " ++ renderIssues e)
    | .ok d =>
      match c.transferOwnership d.collectionUuid d.address with
      | .error m => .error ("Failed to transfer ownership: " ++ m)
      | .ok result => .ok (okEnvelope (jsonStringify result))
  else if name = "list_transactions" then
    match parseListTransactions args with
    | .error e => .error ("Invalid arguments for list_transactions: " ++ renderIssues e)
    | .ok d =>
      match c.listTransactions d.collectionUuid ⟨d.limit⟩ with
      | .error m => .error ("Failed to list transactions: " ++ m)
      | .ok transactions => .ok (okEnvelope (jsonStringify transactions))
  else .error ("Unknown NFT tool: " ++ name)

/-- Names of the seven descriptors of `nftTools`. -/
def toolNames : List String :=
  ["list_collections", "get_collection", "create_collection", "mint_nft",
    "burn_nft", "transfer_ownership", "list_transactions"]

end NftD

/-- Modelled from the spec: the merged `list_tools` response of §4.4 — the
concatenation of every domain's Tool Descriptor Set in domain registration
order, then declaration order within each domain — for the reference
configuration (storage 3, hosting 5, NFT 7).  The router snapshot in
`src/src/index.ts` registers only its inline storage domain; the snapshot
that merges all three domains is not under `src/`. -/
def listToolsRefNames : List String :=
  Index.toolNames ++ HostingD.toolNames ++ NftD.toolNames

/-! ## Concrete collaborator instances (for concrete evaluations) -/

/-- A router collaborator whose every operation fails. -/
def Index.collabDown : Index.Collab :=
  ⟨fun _ => .error "network down", fun _ _ => .error "network down",
    fun _ => .error "ENOENT: no such file or directory", fun _ _ _ => .error "network down"⟩

/-- A router collaborator whose every operation succeeds. -/
def Index.collabUp : Index.Collab :=
  ⟨fun _ => .ok (.arr .nil), fun _ _ => .ok (.arr .nil), fun _ => .ok "bytes",
    fun _ _ _ => .ok (.obj (.cons "fileUuid" (.str "u1") .nil))⟩

/-- A storage collaborator whose every operation succeeds. -/
def StorageD.collabUp : StorageD.Collab :=
  ⟨fun _ => .ok (.obj (.cons "bucketUuid" (.str "u1") .nil)), fun _ => .ok (.arr .nil),
    fun _ _ => .ok (.arr .nil), fun _ => .ok "bytes", fun _ _ _ => .ok .null⟩

/-- A storage collaborator whose every operation fails. -/
def StorageD.collabDown : StorageD.Collab :=
  ⟨fun _ => .error "remote rejection", fun _ => .error "remote rejection",
    fun _ _ => .error "remote rejection", fun _ => .error "ENOENT",
    fun _ _ _ => .error "remote rejection"⟩

/-- A hosting collaborator whose every operation succeeds. -/
def HostingD.collabUp : HostingD.Collab :=
  ⟨fun _ => .ok (.arr .nil), fun _ => .ok .null, fun _ _ => .ok (),
    fun _ _ => .ok .null, fun _ _ => .ok (.arr .nil)⟩

/-- A hosting collaborator whose every operation fails. -/
def HostingD.collabDown : HostingD.Collab :=
  ⟨fun _ => .error "remote rejection", fun _ => .error "remote rejection",
    fun _ _ => .error "remote rejection", fun _ _ => .error "remote rejection",
    fun _ _ => .error "remote rejection"⟩

/-- An NFT collaborator whose every operation succeeds. -/
def NftD.collabUp : NftD.Collab :=
  ⟨fun _ => .ok (.arr .nil), fun _ => .ok .null, fun _ => .ok .null,
    fun _ _ => .ok .null, fun _ _ => .ok .null, fun _ _ => .ok .null,
    fun _ _ => .ok (.arr .nil)⟩

/-- An NFT collaborator whose every operation fails. -/
def NftD.collabDown : NftD.Collab :=
  ⟨fun _ => .error "remote rejection", fun _ => .error "remote rejection",
    fun _ => .error "remote rejection", fun _ _ => .error "remote rejection",
    fun _ _ => .error "remote rejection", fun _ _ => .error "remote rejection",
    fun _ _ => .error "remote rejection"⟩

/-! ## Notions used by the serialization round-trip proof -/

/-- A list of insignificant-whitespace characters. -/
def AllWs (ws : List Char) : Prop := ∀ c ∈ ws, isWs c = true

/-- The remainder does not begin with a decimal digit (so a number token
ends exactly where the serializer ended it). -/
def HeadNotDigit : List Char → Prop
  | [] => True
  | c :: _ => c.isDigit = false

mutual

/-- Fuel bound for parsing one serialized value. -/
def jsize : JVal → Nat
  | .arr xs => jsizeA xs + 1
  | .obj fs => jsizeO fs + 1
  | _ => 1

/-- Fuel bound for parsing a serialized element list. -/
def jsizeA : JArr → Nat
  | .nil => 0
  | .cons x xs => jsize x + jsizeA xs + 1

/-- Fuel bound for parsing a serialized member list. -/
def jsizeO : JObj → Nat
  | .nil => 0
  | .cons _ v fs => jsize v + jsizeO fs + 1

end

/-! ## Inversion lemmas for the validation layer -/

theorem except_map_ok {α β : Type} {f : α → β} {e : ZResult α} {b : β}
    (h : e.map f = .ok b) : ∃ a, e = .ok a ∧ b = f a := by
  cases e with
  | error er => simp [Except.map] at h
  | ok a => exact ⟨a, rfl, by simpa [Except.map] using h.symm⟩

theorem zMerge_ok {α β : Type} {a : ZResult α} {b : ZResult β} {p : α × β}
    (h : zMerge a b = .ok p) : a = .ok p.1 ∧ b = .ok p.2 := by
  obtain ⟨x, y⟩ := p
  cases a <;> cases b <;> simp_all [zMerge]

theorem enumField_mem {bag : Bag} {k : String} {allowed : List String} {s : String}
    (h : enumField bag k allowed = .ok s) : s ∈ allowed := by
  unfold enumField at h
  split at h
  · exact absurd h (by simp)
  · split at h
    · rename_i s2 _ hm
      injection h with h2
      exact h2 ▸ hm
    · exact absurd h (by simp)
  · exact absurd h (by simp)

theorem zMerge_error_right {α β : Type} {a : ZResult α} {b : ZResult β}
    {e : List Issue} (h : b = .error e) : ∃ e2, zMerge a b = .error e2 := by
  cases a <;> simp [zMerge, h]

/-! ## Claims -/

/-- C1: For every call_tool invocation, whatever error is raised during
validation, dispatch, or collaborator invocation, the router catches it and
returns a Response Envelope with isError=true whose single text block is the
string "Error: " followed by the failure's message; no exception ever escapes
the router to the transport (callTool is a total function into envelopes). -/
theorem claim1_error_boundary (name : String) (args : Bag) (c : Index.Collab)
    (m : String) (h : Index.dispatchTool name args c = .error m) :
    Index.callTool name args c = ⟨[⟨"text", "Error: " ++ m⟩], true⟩ := by
  unfold Index.callTool
  rw [h]

/-- Witness for C1: a concrete failing dispatch (unknown tool) is converted
into the error envelope. -/
theorem claim1_error_boundary_witness :
    Index.dispatchTool "frobnicate" [] Index.collabDown =
      .error "Unknown tool: frobnicate"
    ∧ Index.callTool "frobnicate" [] Index.collabDown =
      ⟨[⟨"text", "Error: Unknown tool: frobnicate"⟩], true⟩ :=
  ⟨by decide,
    claim1_error_boundary "frobnicate" [] Index.collabDown
      "Unknown tool: frobnicate" (by decide)⟩

/-- C2: list_tools returns descriptors with pairwise distinct names whose
count is the sum of the domains' declared operation counts (3 + 5 + 7 = 15 in
the reference configuration); no two domains register the same tool name
(also for the alternate-snapshot domain lists present in the source). -/
theorem claim2_tool_names_distinct :
    listToolsRefNames.Nodup
    ∧ listToolsRefNames.length = 3 + 5 + 7
    ∧ (StorageD.toolNames ++ HostingD.altToolNames).Nodup := by
  decide

/-- C3: for every name absent from every domain's descriptor set,
call_tool returns an error envelope whose text contains "Unknown tool" and
contains that name. -/
theorem claim3_unknown_tool (name : String) (args : Bag) (c : Index.Collab)
    (h : name ∉ listToolsRefNames) :
    Index.callTool name args c = ⟨[⟨"text", "Error: Unknown tool: " ++ name⟩], true⟩
    ∧ (∃ p q, "Error: Unknown tool: " ++ name = p ++ "Unknown tool" ++ q)
    ∧ (∃ p q, "Error: Unknown tool: " ++ name = p ++ name ++ q) := by
  simp only [listToolsRefNames, Index.toolNames, HostingD.toolNames, NftD.toolNames,
    List.mem_append, List.mem_cons, List.not_mem_nil, or_false, not_or] at h
  refine ⟨?_, ⟨"Error: ", ": " ++ name, ?_⟩, ⟨"Error: Unknown tool: ", "", ?_⟩⟩
  · unfold Index.callTool Index.dispatchTool
    rw [if_neg h.1.1.1, if_neg h.1.1.2.1, if_neg h.1.1.2.2]
    rfl
  · rfl
  · rw [String.append_empty]

/-- Witness for C3: a concrete absent name. -/
theorem claim3_unknown_tool_witness :
    Index.callTool "frobnicate2" [] Index.collabUp =
      ⟨[⟨"text", "Error: Unknown tool: frobnicate2"⟩], true⟩
    ∧ (∃ p q, "Error: Unknown tool: " ++ "frobnicate2" = p ++ "Unknown tool" ++ q) :=
  ⟨(claim3_unknown_tool "frobnicate2" [] Index.collabUp (by decide)).1,
    (claim3_unknown_tool "frobnicate2" [] Index.collabUp (by decide)).2.1⟩

/-- C4: for every operation that declares defaults, validating a bag that
supplies only the required fields — whatever their values — succeeds and
fills each absent optional field with its declared default; in particular
list_buckets with the empty bag validates to limit 10, page 0, and every
one-required-field schema validates its singleton bag with the defaults
filled, for every value of the required field. -/
theorem claim4_defaults :
    StorageD.parseListBuckets [] = .ok ⟨10, 0⟩
    ∧ Index.parseListBuckets [] = .ok ⟨10, 0⟩
    ∧ HostingD.parseListWebsites [] = .ok ⟨10, 0⟩
    ∧ NftD.parseListCollections [] = .ok ⟨10, 0⟩
    ∧ (∀ b : String,
        StorageD.parseListObjects [("bucketUuid", .str b)] = .ok ⟨b, none, 10, 0⟩)
    ∧ (∀ b : String,
        Index.parseListObjects [("bucketUuid", .str b)] = .ok ⟨b, none, 10, 0⟩)
    ∧ (∀ w : String,
        HostingD.parseListDeployments [("websiteUuid", .str w)] = .ok ⟨w, 10, 0⟩)
    ∧ (∀ c : String,
        NftD.parseMintNft [("collectionUuid", .str c)] = .ok ⟨c, 1, none⟩)
    ∧ (∀ c : String,
        NftD.parseListTransactions [("collectionUuid", .str c)] = .ok ⟨c, 10, 0⟩) :=
  ⟨by decide, by decide, by decide, by decide,
    fun b => rfl, fun b => rfl, fun w => rfl, fun c => rfl, fun c => rfl⟩

/-- Validation failure on `deploy_website` yields the validation message
regardless of the collaborator (the handler fails before any SDK call). -/
theorem deploy_validation_error (bag : Bag) (e : List Issue) (c : HostingD.Collab)
    (h : HostingD.parseDeployWebsite bag = .error e) :
    HostingD.handleHostingTool "deploy_website" bag c =
      .error ("Invalid arguments for deploy_website: " ++ renderIssues e) := by
  unfold HostingD.handleHostingTool
  rw [if_neg (by decide), if_neg (by decide), if_neg (by decide), if_pos rfl]
  simp only [h]

/-- Validation failure on `create_collection` yields the validation message
regardless of the collaborator (the handler fails before any SDK call). -/
theorem createCollection_validation_error (bag : Bag) (e : List Issue)
    (c : NftD.Collab) (h : NftD.parseCreateCollection bag = .error e) :
    NftD.handleNftTool "create_collection" bag c =
      .error ("Invalid arguments for create_collection: " ++ renderIssues e) := by
  unfold NftD.handleNftTool
  rw [if_neg (by decide), if_neg (by decide), if_pos rfl]
  simp only [h]

/-- A `chain` value outside the declared enumeration makes
`parseCreateCollection` fail (the invalid-enum issue propagates through the
issue-collecting merge of the whole object schema). -/
theorem parseCreateCollection_chain_invalid {bag : Bag} {s : String}
    (hg : getField bag "chain" = some (.str s))
    (h1 : s ≠ "MOONBEAM") (h2 : s ≠ "MOONBASE") (h3 : s ≠ "ASTAR") :
    ∃ e, NftD.parseCreateCollection bag = .error e := by
  have henum : enumField bag "chain" ["MOONBEAM", "MOONBASE", "ASTAR"] =
      .error [⟨"chain", .invalidEnum⟩] := by
    simp only [enumField, hg]
    rw [if_neg (by simp [h1, h2, h3])]
  cases hres : NftD.parseCreateCollection bag with
  | error e => exact ⟨e, rfl⟩
  | ok d =>
    unfold NftD.parseCreateCollection at hres
    obtain ⟨p, hp, _⟩ := except_map_ok hres
    have g1 := (zMerge_ok hp).2
    have g2 := (zMerge_ok g1).2
    have g3 := (zMerge_ok g2).2
    have g4 := (zMerge_ok g3).2
    have g5 := (zMerge_ok g4).2
    have g6 := (zMerge_ok g5).2
    have g7 := (zMerge_ok g6).1
    rw [henum] at g7
    simp at g7

/-- C5: an enumerated string parameter outside the declared enumeration fails
validation and the collaborator is never invoked for that call; in particular
deploy_website with environment "canary" fails because "canary" is not in
{staging, production}, and create_collection with chain "SOLANA" fails because
"SOLANA" is not in {MOONBEAM, MOONBASE, ASTAR}; validated enum values go
through the exhaustive environmentMap and chainMap lookup tables. -/
theorem claim5_enum_validation :
    HostingD.parseDeployWebsite
      [("websiteUuid", .str "abc"), ("environment", .str "canary")] =
      .error [⟨"environment", .invalidEnum⟩]
    ∧ (∀ c : HostingD.Collab,
        HostingD.handleHostingTool "deploy_website"
          [("websiteUuid", .str "abc"), ("environment", .str "canary")] c =
          .error "Invalid arguments for deploy_website: environment: invalid enum value")
    ∧ HostingD.envLookup "staging" = some .TO_STAGING
    ∧ HostingD.envLookup "production" = some .DIRECTLY_TO_PRODUCTION
    ∧ (∀ (bag : Bag) (s : String), getField bag "environment" = some (.str s) →
        s ≠ "staging" → s ≠ "production" →
        ∃ e, HostingD.parseDeployWebsite bag = .error e
          ∧ ∀ c c2 : HostingD.Collab,
              HostingD.handleHostingTool "deploy_website" bag c =
                HostingD.handleHostingTool "deploy_website" bag c2
              ∧ HostingD.handleHostingTool "deploy_website" bag c =
                  .error ("Invalid arguments for deploy_website: " ++ renderIssues e))
    ∧ NftD.parseCreateCollection
        [("name", .str "n"), ("symbol", .str "s"), ("isRevokable", .bool false),
          ("isSoulbound", .bool false), ("chain", .str "SOLANA"),
          ("baseUri", .str "u"), ("royaltiesFees", .num 0), ("drop", .bool false)] =
        .error [⟨"chain", .invalidEnum⟩]
    ∧ (∀ c : NftD.Collab,
        NftD.handleNftTool "create_collection"
          [("name", .str "n"), ("symbol", .str "s"), ("isRevokable", .bool false),
            ("isSoulbound", .bool false), ("chain", .str "SOLANA"),
            ("baseUri", .str "u"), ("royaltiesFees", .num 0), ("drop", .bool false)] c =
          .error "Invalid arguments for create_collection: chain: invalid enum value")
    ∧ NftD.chainLookup "MOONBEAM" = some .MOONBEAM
    ∧ NftD.chainLookup "MOONBASE" = some .MOONBASE
    ∧ NftD.chainLookup "ASTAR" = some .ASTAR
    ∧ (∀ (bag : Bag) (s : String), getField bag "chain" = some (.str s) →
        s ≠ "MOONBEAM" → s ≠ "MOONBASE" → s ≠ "ASTAR" →
        ∃ e, NftD.parseCreateCollection bag = .error e
          ∧ ∀ c c2 : NftD.Collab,
              NftD.handleNftTool "create_collection" bag c =
                NftD.handleNftTool "create_collection" bag c2
              ∧ NftD.handleNftTool "create_collection" bag c =
                  .error ("Invalid arguments for create_collection: " ++ renderIssues e)) := by
  refine ⟨by decide, fun c => rfl, by decide, by decide, ?_, by decide, fun c => rfl,
    by decide, by decide, by decide, ?_⟩
  · intro bag s hg h1 h2
    have henum : enumField bag "environment" ["staging", "production"] =
        .error [⟨"environment", .invalidEnum⟩] := by
      simp only [enumField, hg]
      rw [if_neg (by simp [h1, h2])]
    have hperr : ∃ e, HostingD.parseDeployWebsite bag = .error e := by
      unfold HostingD.parseDeployWebsite
      obtain ⟨e2, he2⟩ := zMerge_error_right (a := reqString bag "websiteUuid") henum
      exact ⟨e2, by rw [he2]; rfl⟩
    obtain ⟨e, he⟩ := hperr
    refine ⟨e, he, ?_⟩
    intro c c2
    constructor
    · rw [deploy_validation_error bag e c he, deploy_validation_error bag e c2 he]
    · exact deploy_validation_error bag e c he
  · intro bag s hg h1 h2 h3
    obtain ⟨e, he⟩ := parseCreateCollection_chain_invalid hg h1 h2 h3
    refine ⟨e, he, ?_⟩
    intro c c2
    constructor
    · rw [createCollection_validation_error bag e c he,
        createCollection_validation_error bag e c2 he]
    · exact createCollection_validation_error bag e c he

/-- Witness for C5: the "canary" deploy and the "SOLANA" create each give the
same validation error under two different collaborators. -/
theorem claim5_enum_validation_witness :
    HostingD.handleHostingTool "deploy_website"
      [("websiteUuid", .str "abc"), ("environment", .str "canary")] HostingD.collabUp =
      HostingD.handleHostingTool "deploy_website"
        [("websiteUuid", .str "abc"), ("environment", .str "canary")] HostingD.collabDown
    ∧ (∃ m, HostingD.handleHostingTool "deploy_website"
        [("websiteUuid", .str "abc"), ("environment", .str "canary")] HostingD.collabUp =
        .error m)
    ∧ NftD.handleNftTool "create_collection"
        [("name", .str "n"), ("chain", .str "SOLANA")] NftD.collabUp =
      NftD.handleNftTool "create_collection"
        [("name", .str "n"), ("chain", .str "SOLANA")] NftD.collabDown
    ∧ ∃ m, NftD.handleNftTool "create_collection"
        [("name", .str "n"), ("chain", .str "SOLANA")] NftD.collabUp = .error m := by
  obtain ⟨e, _, hc⟩ := claim5_enum_validation.2.2.2.2.1
    [("websiteUuid", .str "abc"), ("environment", .str "canary")] "canary"
    (by decide) (by decide) (by decide)
  obtain ⟨e2, _, hc2⟩ := claim5_enum_validation.2.2.2.2.2.2.2.2.2.2
    [("name", .str "n"), ("chain", .str "SOLANA")] "SOLANA"
    (by decide) (by decide) (by decide) (by decide)
  exact ⟨(hc HostingD.collabUp HostingD.collabDown).1,
    ⟨_, (hc HostingD.collabUp HostingD.collabDown).2⟩,
    (hc2 NftD.collabUp NftD.collabDown).1,
    ⟨_, (hc2 NftD.collabUp NftD.collabDown).2⟩⟩

/-- C6: for every operation of every embedded domain dispatcher, whenever the
collaborator call (or local file read) fails after validation succeeded, the
call yields an error whose text begins with the operation-identifying prefix
(e.g. "Failed to upload file: ") followed by the failure's message — a
collaborator error, never a validation failure. -/
theorem claim6_collaborator_failure_message :
    (∀ (args : Bag) (c : Index.Collab) (d : UploadFileArgs) (m : String),
        parseUploadFile args = .ok d →
        Index.uploadPhase d c = .error m →
        Index.callTool "upload_file" args c =
          ⟨[⟨"text", "Error: Failed to upload file: " ++ m⟩], true⟩)
    ∧ (∀ (args : Bag) (c : Index.Collab) (d : Index.ListBucketsArgs) (m : String),
        Index.parseListBuckets args = .ok d →
        c.listBuckets ⟨d.limit⟩ = .error m →
        Index.callTool "list_buckets" args c =
          ⟨[⟨"text", "Error: Failed to list buckets: " ++ m⟩], true⟩)
    ∧ (∀ (args : Bag) (c : Index.Collab) (d : Index.ListObjectsArgs) (m : String),
        Index.parseListObjects args = .ok d →
        c.listObjects d.bucketUuid ⟨d.directoryUuid, d.limit⟩ = .error m →
        Index.callTool "list_objects" args c =
          ⟨[⟨"text", "Error: Failed to list objects: " ++ m⟩], true⟩)
    ∧ (∀ (args : Bag) (c : StorageD.Collab) (d : StorageD.CreateBucketArgs) (m : String),
        StorageD.parseCreateBucket args = .ok d →
        c.createBucket ⟨d.name, d.description⟩ = .error m →
        StorageD.handleStorageTool "create_bucket" args c =
          .error ("Failed to create bucket: " ++ m))
    ∧ (∀ (args : Bag) (c : StorageD.Collab) (d : UploadFileArgs) (m : String),
        parseUploadFile args = .ok d →
        StorageD.uploadPhase d c = .error m →
        StorageD.handleStorageTool "upload_file" args c =
          .error ("Failed to upload file: " ++ m))
    ∧ (∀ (args : Bag) (c : StorageD.Collab) (d : StorageD.ListBucketsArgs) (m : String),
        StorageD.parseListBuckets args = .ok d →
        c.listBuckets (StorageD.listBucketsPayload d) = .error m →
        StorageD.handleStorageTool "list_buckets" args c =
          .error ("Failed to list buckets: " ++ m))
    ∧ (∀ (args : Bag) (c : StorageD.Collab) (d : StorageD.ListObjectsArgs) (m : String),
        StorageD.parseListObjects args = .ok d →
        c.listObjects d.bucketUuid ⟨d.directoryUuid, d.limit⟩ = .error m →
        StorageD.handleStorageTool "list_objects" args c =
          .error ("Failed to list objects: " ++ m))
    ∧ (∀ (args : Bag) (c : HostingD.Collab) (d : HostingD.ListWebsitesArgs) (m : String),
        HostingD.parseListWebsites args = .ok d →
        c.listWebsites ⟨d.limit, d.page, 5⟩ = .error m →
        HostingD.handleHostingTool "list_websites" args c =
          .error ("Failed to list websites: " ++ m))
    ∧ (∀ (args : Bag) (c : HostingD.Collab) (d : HostingD.GetWebsiteArgs) (m : String),
        HostingD.parseGetWebsite args = .ok d →
        c.getWebsite d.uuid = .error m →
        HostingD.handleHostingTool "get_website" args c =
          .error ("Failed to get website: " ++ m))
    ∧ (∀ (args : Bag) (c : HostingD.Collab) (d : HostingD.UploadWebsiteFilesArgs)
          (m : String),
        HostingD.parseUploadWebsiteFiles args = .ok d →
        c.uploadFromFolder d.websiteUuid d.folderPath = .error m →
        HostingD.handleHostingTool "upload_website_files" args c =
          .error ("Failed to upload website files: " ++ m))
    ∧ (∀ (args : Bag) (c : HostingD.Collab) (d : HostingD.DeployWebsiteArgs) (m : String),
        HostingD.parseDeployWebsite args = .ok d →
        c.deploy d.websiteUuid (HostingD.envLookup d.environment) = .error m →
        HostingD.handleHostingTool "deploy_website" args c =
          .error ("Failed to deploy website: " ++ m))
    ∧ (∀ (args : Bag) (c : HostingD.Collab) (d : HostingD.ListDeploymentsArgs)
          (m : String),
        HostingD.parseListDeployments args = .ok d →
        c.listDeployments d.websiteUuid ⟨d.limit⟩ = .error m →
        HostingD.handleHostingTool "list_deployments" args c =
          .error ("Failed to list deployments: " ++ m))
    ∧ (∀ (args : Bag) (c : NftD.Collab) (d : NftD.ListCollectionsArgs) (m : String),
        NftD.parseListCollections args = .ok d →
        c.listCollections ⟨d.limit, d.page, 5⟩ = .error m →
        NftD.handleNftTool "list_collections" args c =
          .error ("Failed to list collections: " ++ m))
    ∧ (∀ (args : Bag) (c : NftD.Collab) (d : NftD.GetCollectionArgs) (m : String),
        NftD.parseGetCollection args = .ok d →
        c.getCollection d.uuid = .error m →
        NftD.handleNftTool "get_collection" args c =
          .error ("Failed to get collection: " ++ m))
    ∧ (∀ (args : Bag) (c : NftD.Collab) (d : NftD.CreateCollectionArgs) (m : String),
        NftD.parseCreateCollection args = .ok d →
        c.create (NftD.createCollectionPayload d) = .error m →
        NftD.handleNftTool "create_collection" args c =
          .error ("Failed to create collection: " ++ m))
    ∧ (∀ (args : Bag) (c : NftD.Collab) (d : NftD.MintNftArgs) (m : String),
        NftD.parseMintNft args = .ok d →
        c.mint d.collectionUuid (NftD.mintParams d) = .error m →
        NftD.handleNftTool "mint_nft" args c =
          .error ("Failed to mint NFT: " ++ m))
    ∧ (∀ (args : Bag) (c : NftD.Collab) (d : NftD.BurnNftArgs) (m : String),
        NftD.parseBurnNft args = .ok d →
        c.burn d.collectionUuid d.tokenId = .error m →
        NftD.handleNftTool "burn_nft" args c =
          .error ("Failed to burn NFT: " ++ m))
    ∧ (∀ (args : Bag) (c : NftD.Collab) (d : NftD.TransferOwnershipArgs) (m : String),
        NftD.parseTransferOwnership args = .ok d →
        c.transferOwnership d.collectionUuid d.address = .error m →
        NftD.handleNftTool "transfer_ownership" args c =
          .error ("Failed to transfer ownership: " ++ m))
    ∧ (∀ (args : Bag) (c : NftD.Collab) (d : NftD.ListTransactionsArgs) (m : String),
        NftD.parseListTransactions args = .ok d →
        c.listTransactions d.collectionUuid ⟨d.limit⟩ = .error m →
        NftD.handleNftTool "list_transactions" args c =
          .error ("Failed to list transactions: " ++ m)) := by
  refine ⟨?_, ?_, ?_, ?_, ?_, ?_, ?_, ?_, ?_, ?_, ?_, ?_, ?_, ?_, ?_, ?_, ?_, ?_, ?_⟩
  · intro args c d m hp hc
    unfold Index.callTool Index.dispatchTool
    rw [if_neg (by decide), if_neg (by decide), if_pos rfl]
    simp only [hp, hc]
    rfl
  · intro args c d m hp hc
    unfold Index.callTool Index.dispatchTool
    rw [if_pos rfl]
    simp only [hp, hc]
    rfl
  · intro args c d m hp hc
    unfold Index.callTool Index.dispatchTool
    rw [if_neg (by decide), if_pos rfl]
    simp only [hp, hc]
    rfl
  · intro args c d m hp hc
    unfold StorageD.handleStorageTool
    rw [if_pos rfl]
    simp only [hp, hc]
  · intro args c d m hp hc
    unfold StorageD.handleStorageTool
    rw [if_neg (by decide), if_neg (by decide), if_neg (by decide), if_pos rfl]
    simp only [hp, hc]
  · intro args c d m hp hc
    unfold StorageD.handleStorageTool
    rw [if_neg (by decide), if_pos rfl]
    simp only [hp, hc]
  · intro args c d m hp hc
    unfold StorageD.handleStorageTool
    rw [if_neg (by decide), if_neg (by decide), if_pos rfl]
    simp only [hp, hc]
  · intro args c d m hp hc
    unfold HostingD.handleHostingTool
    rw [if_pos rfl]
    simp only [hp, hc]
  · intro args c d m hp hc
    unfold HostingD.handleHostingTool
    rw [if_neg (by decide), if_pos rfl]
    simp only [hp, hc]
  · intro args c d m hp hc
    unfold HostingD.handleHostingTool
    rw [if_neg (by decide), if_neg (by decide), if_pos rfl]
    simp only [hp, hc]
  · intro args c d m hp hc
    unfold HostingD.handleHostingTool
    rw [if_neg (by decide), if_neg (by decide), if_neg (by decide), if_pos rfl]
    simp only [hp, hc]
  · intro args c d m hp hc
    unfold HostingD.handleHostingTool
    rw [if_neg (by decide), if_neg (by decide), if_neg (by decide),
      if_neg (by decide), if_pos rfl]
    simp only [hp, hc]
  · intro args c d m hp hc
    unfold NftD.handleNftTool
    rw [if_pos rfl]
    simp only [hp, hc]
  · intro args c d m hp hc
    unfold NftD.handleNftTool
    rw [if_neg (by decide), if_pos rfl]
    simp only [hp, hc]
  · intro args c d m hp hc
    unfold NftD.handleNftTool
    rw [if_neg (by decide), if_neg (by decide), if_pos rfl]
    simp only [hp, hc]
  · intro args c d m hp hc
    unfold NftD.handleNftTool
    rw [if_neg (by decide), if_neg (by decide), if_neg (by decide), if_pos rfl]
    simp only [hp, hc]
  · intro args c d m hp hc
    unfold NftD.handleNftTool
    rw [if_neg (by decide), if_neg (by decide), if_neg (by decide),
      if_neg (by decide), if_pos rfl]
    simp only [hp, hc]
  · intro args c d m hp hc
    unfold NftD.handleNftTool
    rw [if_neg (by decide), if_neg (by decide), if_neg (by decide),
      if_neg (by decide), if_neg (by decide), if_pos rfl]
    simp only [hp, hc]
  · intro args c d m hp hc
    unfold NftD.handleNftTool
    rw [if_neg (by decide), if_neg (by decide), if_neg (by decide),
      if_neg (by decide), if_neg (by decide), if_neg (by decide), if_pos rfl]
    simp only [hp, hc]

/-- Witness for C6: a missing local file fails `upload_file` with its prefix;
a rejected `create_bucket`, `deploy_website` and `mint_nft` each fail with
their prefixes. -/
theorem claim6_collaborator_failure_message_witness :
    Index.callTool "upload_file"
      [("bucketUuid", .str "b"), ("fileName", .str "f"), ("filePath", .str "missing.txt")]
      Index.collabDown =
      ⟨[⟨"text", "Error: Failed to upload file: ENOENT: no such file or directory"⟩], true⟩
    ∧ StorageD.handleStorageTool "create_bucket" [("name", .str "docs")] StorageD.collabDown =
      .error "Failed to create bucket: remote rejection"
    ∧ HostingD.handleHostingTool "deploy_website"
        [("websiteUuid", .str "w"), ("environment", .str "staging")] HostingD.collabDown =
      .error "Failed to deploy website: remote rejection"
    ∧ NftD.handleNftTool "mint_nft" [("collectionUuid", .str "c")] NftD.collabDown =
      .error "Failed to mint NFT: remote rejection" :=
  ⟨claim6_collaborator_failure_message.1
      [("bucketUuid", .str "b"), ("fileName", .str "f"), ("filePath", .str "missing.txt")]
      Index.collabDown ⟨"b", "f", "missing.txt", none⟩
      "ENOENT: no such file or directory" (by decide) (by decide),
    claim6_collaborator_failure_message.2.2.2.1
      [("name", .str "docs")] StorageD.collabDown ⟨"docs", none⟩
      "remote rejection" (by decide) (by decide),
    claim6_collaborator_failure_message.2.2.2.2.2.2.2.2.2.2.1
      [("websiteUuid", .str "w"), ("environment", .str "staging")]
      HostingD.collabDown ⟨"w", "staging"⟩
      "remote rejection" (by decide) (by decide),
    claim6_collaborator_failure_message.2.2.2.2.2.2.2.2.2.2.2.2.2.2.2.1
      [("collectionUuid", .str "c")] NftD.collabDown ⟨"c", 1, none⟩
      "remote rejection" (by decide) (by decide)⟩

/-- C7 counterexample: the claim "for every operation the dispatcher invokes
the collaborator with exactly the Validated Arguments (no fields added)"
fails at list_buckets: the validated arguments {limit:10, page:0} are passed
with an additional fixed field status:5 that is not part of the Validated
Arguments. -/
theorem claim7_counterexample :
    StorageD.parseListBuckets [] = .ok ⟨10, 0⟩
    ∧ StorageD.listBucketsPayload ⟨10, 0⟩ = ⟨10, 0, 5⟩
    ∧ getField (StorageD.listBucketsPayloadFields (StorageD.listBucketsPayload ⟨10, 0⟩))
        "status" = some (.num 5)
    ∧ getField (StorageD.listBucketsArgsFields ⟨10, 0⟩) "status" = none
    ∧ StorageD.listBucketsPayloadFields (StorageD.listBucketsPayload ⟨10, 0⟩) ≠
        StorageD.listBucketsArgsFields ⟨10, 0⟩ := by
  decide

/-- C7 (amended): for create_bucket, after validation the dispatcher invokes
the collaborator with exactly the Validated Arguments — the payload object
{name, description} is the validated record itself — and on success returns a
non-error envelope whose text is the pretty-printed bucket record; in
particular {name:"docs"} validates to {name:"docs", description:undefined}.
(Not every operation passes the arguments verbatim: list_buckets adds the
fixed field status:5, see the counterexample.) -/
theorem claim7_create_bucket_exact (args : Bag) (d : StorageD.CreateBucketArgs)
    (r : JVal) (c : StorageD.Collab)
    (hp : StorageD.parseCreateBucket args = .ok d)
    (hc : c.createBucket d = .ok r) :
    StorageD.handleStorageTool "create_bucket" args c = .ok (okEnvelope (jsonStringify r))
    ∧ (⟨d.name, d.description⟩ : StorageD.CreateBucketArgs) = d
    ∧ okEnvelope (jsonStringify r) = ⟨[⟨"text", jsonStringify r⟩], false⟩
    ∧ StorageD.parseCreateBucket [("name", .str "docs")] = .ok ⟨"docs", none⟩ := by
  refine ⟨?_, rfl, rfl, by decide⟩
  unfold StorageD.handleStorageTool
  rw [if_pos rfl]
  simp only [hp]
  rw [show (⟨d.name, d.description⟩ : StorageD.CreateBucketArgs) = d from rfl]
  simp only [hc]

/-- Witness for C7 (amended): the "docs" example end to end against a
concrete collaborator. -/
theorem claim7_create_bucket_exact_witness :
    StorageD.handleStorageTool "create_bucket" [("name", .str "docs")] StorageD.collabUp =
      .ok (okEnvelope (jsonStringify (.obj (.cons "bucketUuid" (.str "u1") .nil)))) :=
  (claim7_create_bucket_exact [("name", .str "docs")] ⟨"docs", none⟩
    (.obj (.cons "bucketUuid" (.str "u1") .nil)) StorageD.collabUp
    (by decide) (by decide)).1

/-- C8 counterexample: a present-but-empty directoryPath is NOT passed
through unchanged — JS truthiness coerces it to an absent options value. -/
theorem claim8_counterexample :
    parseUploadFile [("bucketUuid", .str "b"), ("fileName", .str "f"),
      ("filePath", .str "p"), ("directoryPath", .str "")] = .ok ⟨"b", "f", "p", some ""⟩
    ∧ uploadFileOptions (some "") = none
    ∧ uploadFileOptions (some "") ≠ some ⟨""⟩ := by
  decide

/-- C8 (amended): when upload_file's argument bag omits directoryPath, the
options value handed to the collaborator upload is absent (undefined), not an
empty string and not null; when directoryPath is present AND non-empty it is
passed through unchanged; a present empty string is coerced to absent by JS
truthiness.  The last two conjuncts pin down that what the handlers hand to
`uploadFiles` is exactly `uploadFileOptions directoryPath`. -/
theorem claim8_directory_path_options :
    uploadFileOptions none = none
    ∧ (∀ s : String, s.isEmpty = false → uploadFileOptions (some s) = some ⟨s⟩)
    ∧ uploadFileOptions (some "") = none
    ∧ (∀ (d : UploadFileArgs) (c : Index.Collab),
        Index.uploadPhase d c =
          match c.readFile d.filePath with
          | .error m => .error m
          | .ok buf =>
            c.uploadFiles d.bucketUuid [⟨d.fileName, "application/octet-stream", buf⟩]
              (uploadFileOptions d.directoryPath))
    ∧ (∀ (d : UploadFileArgs) (c : StorageD.Collab),
        StorageD.uploadPhase d c =
          match c.readFile d.filePath with
          | .error m => .error m
          | .ok buf =>
            c.uploadFiles d.bucketUuid [⟨d.fileName, "application/octet-stream", buf⟩]
              (uploadFileOptions d.directoryPath)) := by
  refine ⟨rfl, ?_, rfl, fun d c => rfl, fun d c => rfl⟩
  intro s hs
  simp [uploadFileOptions, hs]

/-- Witness for C8 (amended): a non-empty directoryPath is passed through. -/
theorem claim8_directory_path_options_witness :
    uploadFileOptions (some "docs") = some ⟨"docs"⟩ :=
  claim8_directory_path_options.2.1 "docs" rfl

/-- C10: whenever validation succeeds, the enum lookup table (environmentMap
for deploy_website, chainMap for create_collection) has an entry for the
validated enum value, so indexing never yields undefined and the collaborator
is never invoked with a missing environment or chain value. -/
theorem claim10_enum_lookup_total :
    (∀ (bag : Bag) (a : HostingD.DeployWebsiteArgs),
        HostingD.parseDeployWebsite bag = .ok a →
        (HostingD.envLookup a.environment).isSome = true)
    ∧ (∀ (bag : Bag) (a : NftD.CreateCollectionArgs),
        NftD.parseCreateCollection bag = .ok a →
        ((NftD.createCollectionPayload a).chain).isSome = true) := by
  constructor
  · intro bag a h
    unfold HostingD.parseDeployWebsite at h
    obtain ⟨p, hp, ha⟩ := except_map_ok h
    obtain ⟨h1, h2⟩ := zMerge_ok hp
    have hmem := enumField_mem h2
    subst ha
    simp only [List.mem_cons, List.not_mem_nil, or_false] at hmem
    show (HostingD.envLookup p.2).isSome = true
    rcases hmem with hm | hm <;> rw [hm] <;> decide
  · intro bag a h
    unfold NftD.parseCreateCollection at h
    obtain ⟨p, hp, ha⟩ := except_map_ok h
    obtain ⟨h1, hp⟩ := zMerge_ok hp
    obtain ⟨h2, hp⟩ := zMerge_ok hp
    obtain ⟨h3, hp⟩ := zMerge_ok hp
    obtain ⟨h4, hp⟩ := zMerge_ok hp
    obtain ⟨h5, hp⟩ := zMerge_ok hp
    obtain ⟨h6, hp⟩ := zMerge_ok hp
    obtain ⟨h7, hp⟩ := zMerge_ok hp
    have hmem := enumField_mem h7
    subst ha
    simp only [List.mem_cons, List.not_mem_nil, or_false] at hmem
    show (NftD.chainLookup p.2.2.2.2.2.2.1).isSome = true
    rcases hmem with hm | hm | hm <;> rw [hm] <;> decide

/-- Witness for C10: concrete validated deploy_website and create_collection
calls whose enum lookups are defined. -/
theorem claim10_enum_lookup_total_witness :
    (HostingD.envLookup
      (⟨"w", "staging"⟩ : HostingD.DeployWebsiteArgs).environment).isSome = true
    ∧ ((NftD.createCollectionPayload
        ⟨"n", "s", none, true, false, none, "MOONBEAM", "u", none, none, 0, false,
          none, none, none⟩).chain).isSome = true :=
  ⟨claim10_enum_lookup_total.1 [("websiteUuid", .str "w"), ("environment", .str "staging")]
      ⟨"w", "staging"⟩ (by decide),
    claim10_enum_lookup_total.2
      [("name", .str "n"), ("symbol", .str "s"), ("isRevokable", .bool true),
        ("isSoulbound", .bool false), ("chain", .str "MOONBEAM"), ("baseUri", .str "u"),
        ("royaltiesFees", .num 0), ("drop", .bool false)]
      ⟨"n", "s", none, true, false, none, "MOONBEAM", "u", none, none, 0, false,
        none, none, none⟩ (by decide)⟩

/-! ## Round-trip lemmas: whitespace, digits, escaped strings -/

theorem allWs_nil : AllWs [] := by
  intro c hc
  cases hc

theorem allWs_ind (n : Nat) : AllWs (ind n) := by
  intro c hc
  rw [List.eq_of_mem_replicate hc]
  rfl

theorem allWs_cons {c : Char} {cs : List Char} (hc : isWs c = true) (h : AllWs cs) :
    AllWs (c :: cs) := by
  intro x hx
  rcases List.mem_cons.mp hx with h1 | h1
  · exact h1 ▸ hc
  · exact h x h1

theorem skipWs_append : ∀ (ws cs : List Char), AllWs ws → skipWs (ws ++ cs) = skipWs cs
  | [], _, _ => rfl
  | c :: ws, cs, h => by
    have hc : isWs c = true := h c (List.mem_cons_self c ws)
    have ih := skipWs_append ws cs (fun x hx => h x (List.mem_cons_of_mem c hx))
    simp [skipWs, hc, ih]

theorem skipWs_not {c : Char} (hc : isWs c = false) (cs : List Char) :
    skipWs (c :: cs) = c :: cs := by
  simp [skipWs, hc]

theorem skipWs_past {ws : List Char} (hws : AllWs ws) {c : Char} (hc : isWs c = false)
    (cs : List Char) : skipWs (ws ++ c :: cs) = c :: cs := by
  rw [skipWs_append ws (c :: cs) hws, skipWs_not hc]

theorem digCh_isDigit : ∀ d, d < 10 → (digCh d).isDigit = true := by decide

theorem digVal_digCh : ∀ d, d < 10 → digVal (digCh d) = d := by decide

theorem natDigits_digit (n : Nat) : ∀ c ∈ natDigits n, c.isDigit = true := by
  induction n using Nat.strong_induction_on with
  | _ n ih =>
    intro c hc
    unfold natDigits at hc
    split at hc
    · rename_i h
      rw [List.mem_singleton] at hc
      exact hc ▸ digCh_isDigit n h
    · rename_i h
      rw [List.mem_append] at hc
      rcases hc with hc | hc
      · exact ih (n / 10) (Nat.div_lt_self (by omega) (by omega)) c hc
      · rw [List.mem_singleton] at hc
        exact hc ▸ digCh_isDigit (n % 10) (Nat.mod_lt n (by omega))

theorem natDigits_head (n : Nat) : ∃ d t, d < 10 ∧ natDigits n = digCh d :: t := by
  induction n using Nat.strong_induction_on with
  | _ n ih =>
    unfold natDigits
    split
    · rename_i h
      exact ⟨n, [], h, rfl⟩
    · rename_i h
      obtain ⟨d, t, hd, ht⟩ := ih (n / 10) (Nat.div_lt_self (by omega) (by omega))
      exact ⟨d, t ++ [digCh (n % 10)], hd, by rw [ht]; rfl⟩

theorem spanDigits_append : ∀ (ds rest : List Char), (∀ c ∈ ds, c.isDigit = true) →
    HeadNotDigit rest → spanDigits (ds ++ rest) = (ds, rest)
  | [], rest, _, hr => by
    cases rest with
    | nil => rfl
    | cons c cs =>
      have hc : c.isDigit = false := hr
      simp [spanDigits, hc]
  | d :: ds, rest, hd, hr => by
    have h1 : d.isDigit = true := hd d (List.mem_cons_self d ds)
    have ih := spanDigits_append ds rest (fun c hc => hd c (List.mem_cons_of_mem d hc)) hr
    simp [spanDigits, h1, ih]

theorem readDigits_append (ds : List Char) : ∀ (acc : Nat) (c : Char),
    readDigits acc (ds ++ [c]) = readDigits acc ds * 10 + digVal c := by
  induction ds with
  | nil => intro acc c; rfl
  | cons d ds ih =>
    intro acc c
    show readDigits (acc * 10 + digVal d) (ds ++ [c]) =
      readDigits (acc * 10 + digVal d) ds * 10 + digVal c
    exact ih (acc * 10 + digVal d) c

theorem readDigits_natDigits (n : Nat) : readDigits 0 (natDigits n) = n := by
  induction n using Nat.strong_induction_on with
  | _ n ih =>
    unfold natDigits
    split
    · rename_i h
      show 0 * 10 + digVal (digCh n) = n
      rw [digVal_digCh n h]
      omega
    · rename_i h
      rw [readDigits_append, ih (n / 10) (Nat.div_lt_self (by omega) (by omega)),
        digVal_digCh (n % 10) (Nat.mod_lt n (by omega))]
      omega

theorem hexVal_hexDig : ∀ x, x < 16 → hexVal (hexDig x) = x := by decide

theorem isHex_hexDig : ∀ x, x < 16 → isHex (hexDig x) = true := by decide

theorem pStr_escape : ∀ (s rest : List Char), pStr (escStr s ++ '"' :: rest) = some (s, rest)
  | [], rest => by
    simp only [escStr, List.nil_append]
    rw [pStr.eq_def]
    simp
  | c :: s, rest => by
    have ih := pStr_escape s rest
    unfold escStr escChar
    by_cases h1 : c = '"'
    · subst h1
      rw [if_pos rfl]
      simp only [List.cons_append, List.nil_append]
      rw [pStr.eq_def]
      simp [ih]
    · rw [if_neg h1]
      by_cases h2 : c = '\\'
      · subst h2
        rw [if_pos rfl]
        simp only [List.cons_append, List.nil_append]
        rw [pStr.eq_def]
        simp [ih]
      · rw [if_neg h2]
        by_cases h3 : c = '\x08'
        · subst h3
          rw [if_pos rfl]
          simp only [List.cons_append, List.nil_append]
          rw [pStr.eq_def]
          simp [ih]
        · rw [if_neg h3]
          by_cases h4 : c = '\t'
          · subst h4
            rw [if_pos rfl]
            simp only [List.cons_append, List.nil_append]
            rw [pStr.eq_def]
            simp [ih]
          · rw [if_neg h4]
            by_cases h5 : c = '\n'
            · subst h5
              rw [if_pos rfl]
              simp only [List.cons_append, List.nil_append]
              rw [pStr.eq_def]
              simp [ih]
            · rw [if_neg h5]
              by_cases h6 : c = '\x0c'
              · subst h6
                rw [if_pos rfl]
                simp only [List.cons_append, List.nil_append]
                rw [pStr.eq_def]
                simp [ih]
              · rw [if_neg h6]
                by_cases h7 : c = '\r'
                · subst h7
                  rw [if_pos rfl]
                  simp only [List.cons_append, List.nil_append]
                  rw [pStr.eq_def]
                  simp [ih]
                · rw [if_neg h7]
                  by_cases h8 : c.toNat < 32
                  · rw [if_pos h8]
                    have hb1 : c.toNat / 16 < 16 := by omega
                    have hb2 : c.toNat % 16 < 16 := by omega
                    have hx0 : isHex '0' = true := by decide
                    have hv0 : hexVal '0' = 0 := by decide
                    simp only [List.cons_append, List.nil_append]
                    rw [pStr.eq_def]
                    simp [isHex_hexDig _ hb1, isHex_hexDig _ hb2, hx0, hv0, ih]
                    rw [hexVal_hexDig _ hb1, hexVal_hexDig _ hb2]
                    have hdm : c.toNat / 16 * 16 + c.toNat % 16 = c.toNat := by omega
                    rw [hdm]
                    exact Char.ofNat_toNat c
                  · rw [if_neg h8]
                    simp only [List.cons_append, List.nil_append]
                    rw [pStr.eq_def]
                    simp [ih, h1, h2]

mutual

theorem jsize_le (v : JVal) : ∀ i : Nat, jsize v ≤ (ppVal i v).length + 1 := by
  intro i
  cases v with
  | null => simp [jsize, ppVal]
  | bool b => cases b <;> simp [jsize, ppVal]
  | num n => simp [jsize, ppVal]
  | str s => simp [jsize, ppVal]
  | arr xs =>
    cases xs with
    | nil => simp [jsize, jsizeA, ppVal]
    | cons x xs2 =>
      have h1 := jsize_le x (i + 2)
      have h2 := jsizeA_le xs2 (i + 2)
      simp only [jsize, jsizeA, ppVal, List.length_cons, List.length_append, ind,
        List.length_replicate, List.length_singleton]
      omega
  | obj fs =>
    cases fs with
    | nil => simp [jsize, jsizeO, ppVal]
    | cons k v2 fs2 =>
      have h1 := jsize_le v2 (i + 2)
      have h2 := jsizeO_le fs2 (i + 2)
      simp only [jsize, jsizeO, ppVal, ppField, List.length_cons, List.length_append, ind,
        List.length_replicate, List.length_singleton]
      omega

theorem jsizeA_le (xs : JArr) : ∀ i : Nat, jsizeA xs ≤ (ppElems i xs).length := by
  intro i
  cases xs with
  | nil => simp [jsizeA, ppElems]
  | cons x xs2 =>
    have h1 := jsize_le x i
    have h2 := jsizeA_le xs2 i
    simp only [jsizeA, ppElems, List.length_cons, List.length_append, ind,
      List.length_replicate]
    omega

theorem jsizeO_le (fs : JObj) : ∀ i : Nat, jsizeO fs ≤ (ppFields i fs).length := by
  intro i
  cases fs with
  | nil => simp [jsizeO, ppFields]
  | cons k v fs2 =>
    have h1 := jsize_le v i
    have h2 := jsizeO_le fs2 i
    simp only [jsizeO, ppFields, ppField, List.length_cons, List.length_append, ind,
      List.length_replicate]
    omega

end

theorem jsize_pos (v : JVal) : 1 ≤ jsize v := by
  cases v <;> simp [jsize]

theorem digCh_props : ∀ d, d < 10 →
    isWs (digCh d) = false ∧ digCh d ≠ ']' ∧ digCh d ≠ '\x7d' := by decide

theorem ppVal_head (i : Nat) (v : JVal) :
    ∃ c t, ppVal i v = c :: t ∧ isWs c = false ∧ c ≠ ']' ∧ c ≠ '\x7d' := by
  cases v with
  | null =>
    exact ⟨'n', ['u', 'l', 'l'], by simp [ppVal], by decide, by decide, by decide⟩
  | bool b =>
    cases b with
    | false =>
      exact ⟨'f', ['a', 'l', 's', 'e'], by simp [ppVal], by decide, by decide, by decide⟩
    | true =>
      exact ⟨'t', ['r', 'u', 'e'], by simp [ppVal], by decide, by decide, by decide⟩
  | num n =>
    have hp : ppVal i (JVal.num n) = intChars n := by simp [ppVal]
    rw [hp]
    unfold intChars
    by_cases hn : n < 0
    · rw [if_pos hn]
      exact ⟨'-', _, rfl, by decide, by decide, by decide⟩
    · rw [if_neg hn]
      obtain ⟨d, t, hd, ht⟩ := natDigits_head n.toNat
      rw [ht]
      obtain ⟨p1, p2, p3⟩ := digCh_props d hd
      exact ⟨digCh d, t, rfl, p1, p2, p3⟩
  | str s =>
    exact ⟨'"', escStr s.data ++ ['"'], by simp [ppVal], by decide, by decide, by decide⟩
  | arr xs =>
    cases xs with
    | nil => exact ⟨'[', [']'], by simp [ppVal], by decide, by decide, by decide⟩
    | cons x xs2 =>
      exact ⟨'[', '\n' :: ind (i + 2) ++ ppVal (i + 2) x ++ ppElems (i + 2) xs2 ++
        '\n' :: ind i ++ [']'], by simp [ppVal], by decide, by decide, by decide⟩
  | obj fs =>
    cases fs with
    | nil => exact ⟨'\x7b', ['\x7d'], by simp [ppVal], by decide, by decide, by decide⟩
    | cons k v fs2 =>
      exact ⟨'\x7b', '\n' :: ind (i + 2) ++ ppField (i + 2) k v ++ ppFields (i + 2) fs2 ++
        '\n' :: ind i ++ ['\x7d'], by simp [ppVal], by decide, by decide, by decide⟩

/-- Head of the continuation after an array element or object member. -/
theorem hnd_ppElems (i : Nat) (xs : JArr) (l : List Char) :
    HeadNotDigit (ppElems i xs ++ '\n' :: l) := by
  cases xs with
  | nil =>
    rw [show ppElems i JArr.nil = [] from by simp [ppElems], List.nil_append]
    show ('\n').isDigit = false
    decide
  | cons x xs2 =>
    rw [show ppElems i (.cons x xs2) =
      ',' :: '\n' :: ind i ++ ppVal i x ++ ppElems i xs2 from by simp [ppElems]]
    simp only [List.cons_append]
    show (',').isDigit = false
    decide

theorem hnd_ppFields (i : Nat) (fs : JObj) (l : List Char) :
    HeadNotDigit (ppFields i fs ++ '\n' :: l) := by
  cases fs with
  | nil =>
    rw [show ppFields i JObj.nil = [] from by simp [ppFields], List.nil_append]
    show ('\n').isDigit = false
    decide
  | cons k v fs2 =>
    rw [show ppFields i (.cons k v fs2) =
      ',' :: '\n' :: ind i ++ ppField i k v ++ ppFields i fs2 from by simp [ppFields]]
    simp only [List.cons_append]
    show (',').isDigit = false
    decide

theorem digCh_not_special : ∀ d, d < 10 →
    digCh d ≠ 'n' ∧ digCh d ≠ 't' ∧ digCh d ≠ 'f' ∧ digCh d ≠ '"' ∧
    digCh d ≠ '[' ∧ digCh d ≠ '\x7b' ∧ digCh d ≠ '-' ∧ (digCh d).isDigit = true ∧
    isWs (digCh d) = false := by decide

theorem pVal_num (f : Nat) (ws rest : List Char) (hws : AllWs ws)
    (hrest : HeadNotDigit rest) (n : Int) :
    pVal (f + 1) (ws ++ (intChars n ++ rest)) = some (.num n, rest) := by
  unfold intChars
  by_cases hn : n < 0
  · rw [if_pos hn]
    simp only [pVal, List.cons_append]
    rw [skipWs_past hws (show isWs '-' = false by decide)]
    obtain ⟨d, t, hd, ht⟩ := natDigits_head (-n).toNat
    have hspan : spanDigits (digCh d :: (t ++ rest)) = (digCh d :: t, rest) := by
      rw [show digCh d :: (t ++ rest) = (digCh d :: t) ++ rest from rfl, ← ht]
      exact spanDigits_append (natDigits (-n).toNat) rest (natDigits_digit _) hrest
    simp [ht, hspan]
    rw [← ht, readDigits_natDigits]
    omega
  · rw [if_neg hn]
    obtain ⟨d, t, hd, ht⟩ := natDigits_head n.toNat
    obtain ⟨q1, q2, q3, q4, q5, q6, q7, q8, q9⟩ := digCh_not_special d hd
    rw [ht]
    simp only [pVal, List.cons_append]
    rw [skipWs_past hws q9]
    have hspan : spanDigits (digCh d :: (t ++ rest)) = (digCh d :: t, rest) := by
      rw [show digCh d :: (t ++ rest) = (digCh d :: t) ++ rest from rfl, ← ht]
      exact spanDigits_append (natDigits n.toNat) rest (natDigits_digit _) hrest
    simp [q1, q2, q3, q4, q5, q6, q7, q8, hspan]
    rw [← ht, readDigits_natDigits]
    omega

theorem mk_data (s : String) : String.mk s.data = s := rfl

theorem pVal_null (f i : Nat) (ws rest : List Char) (hws : AllWs ws) :
    pVal (f + 1) (ws ++ (ppVal i JVal.null ++ rest)) = some (.null, rest) := by
  rw [show ppVal i JVal.null = ['n', 'u', 'l', 'l'] from by simp [ppVal]]
  simp only [List.cons_append, List.nil_append]
  simp only [pVal]
  rw [skipWs_past hws (show isWs 'n' = false by decide)]
  simp

theorem pVal_bool (f i : Nat) (ws rest : List Char) (hws : AllWs ws) (b : Bool) :
    pVal (f + 1) (ws ++ (ppVal i (JVal.bool b) ++ rest)) = some (.bool b, rest) := by
  cases b with
  | false =>
    rw [show ppVal i (JVal.bool false) = ['f', 'a', 'l', 's', 'e'] from by simp [ppVal]]
    simp only [List.cons_append, List.nil_append]
    simp only [pVal]
    rw [skipWs_past hws (show isWs 'f' = false by decide)]
    simp
  | true =>
    rw [show ppVal i (JVal.bool true) = ['t', 'r', 'u', 'e'] from by simp [ppVal]]
    simp only [List.cons_append, List.nil_append]
    simp only [pVal]
    rw [skipWs_past hws (show isWs 't' = false by decide)]
    simp

theorem pVal_str (f i : Nat) (ws rest : List Char) (hws : AllWs ws) (s : String) :
    pVal (f + 1) (ws ++ (ppVal i (JVal.str s) ++ rest)) = some (.str s, rest) := by
  rw [show ppVal i (JVal.str s) = '"' :: escStr s.data ++ ['"'] from by simp [ppVal]]
  simp only [List.cons_append, List.nil_append, List.append_assoc]
  simp only [pVal]
  rw [skipWs_past hws (show isWs '"' = false by decide)]
  simp [pStr_escape s.data rest, mk_data]

theorem pVal_arrNil (f i : Nat) (ws rest : List Char) (hws : AllWs ws) :
    pVal (f + 1) (ws ++ (ppVal i (JVal.arr JArr.nil) ++ rest)) = some (.arr .nil, rest) := by
  rw [show ppVal i (JVal.arr JArr.nil) = ['[', ']'] from by simp [ppVal]]
  simp only [List.cons_append, List.nil_append]
  simp only [pVal]
  rw [skipWs_past hws (show isWs '[' = false by decide)]
  simp [skipWs_not (show isWs ']' = false by decide) rest]

theorem pVal_objNil (f i : Nat) (ws rest : List Char) (hws : AllWs ws) :
    pVal (f + 1) (ws ++ (ppVal i (JVal.obj JObj.nil) ++ rest)) = some (.obj .nil, rest) := by
  rw [show ppVal i (JVal.obj JObj.nil) = ['\x7b', '\x7d'] from by simp [ppVal]]
  simp only [List.cons_append, List.nil_append]
  simp only [pVal]
  rw [skipWs_past hws (show isWs '\x7b' = false by decide)]
  simp [skipWs_not (show isWs '\x7d' = false by decide) rest]

theorem skipWs_nl_ind (i : Nat) (cs : List Char) :
    skipWs ('\n' :: (ind i ++ cs)) = skipWs cs := by
  show skipWs (('\n' :: ind i) ++ cs) = skipWs cs
  exact skipWs_append ('\n' :: ind i) cs (allWs_cons (by decide) (allWs_ind i))

mutual

theorem rtVal (v : JVal) (f i : Nat) (ws rest : List Char) (hf : jsize v ≤ f)
    (hws : AllWs ws) (hrest : HeadNotDigit rest) :
    pVal f (ws ++ (ppVal i v ++ rest)) = some (v, rest) := by
  obtain ⟨f2, rfl⟩ : ∃ f2, f = f2 + 1 := ⟨f - 1, by have := jsize_pos v; omega⟩
  cases v with
  | null => exact pVal_null f2 i ws rest hws
  | bool b => exact pVal_bool f2 i ws rest hws b
  | num n =>
    rw [show ppVal i (JVal.num n) = intChars n from by simp [ppVal]]
    exact pVal_num f2 ws rest hws hrest n
  | str s => exact pVal_str f2 i ws rest hws s
  | arr xs =>
    cases xs with
    | nil => exact pVal_arrNil f2 i ws rest hws
    | cons x xs2 =>
      have hb : jsizeA (JArr.cons x xs2) ≤ f2 := by
        simp [jsize, jsizeA] at hf
        simp [jsizeA]
        omega
      have h := rtElems x xs2 f2 i [] rest hb allWs_nil
      rw [List.nil_append] at h
      rw [show ppVal i (JVal.arr (JArr.cons x xs2)) =
        '[' :: '\n' :: ind (i + 2) ++ ppVal (i + 2) x ++ ppElems (i + 2) xs2 ++
          '\n' :: ind i ++ [']'] from by simp [ppVal]]
      simp only [List.cons_append, List.append_assoc, List.nil_append]
      simp only [pVal]
      rw [skipWs_past hws (show isWs '[' = false by decide)]
      obtain ⟨c0, t0, hc0, hw0, hne0, hne0b⟩ := ppVal_head (i + 2) x
      simp [skipWs_nl_ind, hc0, skipWs_not hw0]
      split
      · rename_i r heq
        injection heq with heq1 heq2
        exact absurd heq1 hne0
      · rw [show c0 :: (t0 ++ (ppElems (i + 2) xs2 ++ ('\n' :: (ind i ++ (']' :: rest))))) =
          (c0 :: t0) ++ (ppElems (i + 2) xs2 ++ ('\n' :: (ind i ++ (']' :: rest)))) from rfl,
          ← hc0, h]
  | obj fs =>
    cases fs with
    | nil => exact pVal_objNil f2 i ws rest hws
    | cons k v2 fs2 =>
      have hb : jsizeO (JObj.cons k v2 fs2) ≤ f2 := by
        simp [jsize, jsizeO] at hf
        simp [jsizeO]
        omega
      have h := rtFields k v2 fs2 f2 i [] rest hb allWs_nil
      rw [List.nil_append] at h
      rw [show ppVal i (JVal.obj (JObj.cons k v2 fs2)) =
        '\x7b' :: '\n' :: ind (i + 2) ++ ppField (i + 2) k v2 ++ ppFields (i + 2) fs2 ++
          '\n' :: ind i ++ ['\x7d'] from by simp [ppVal]]
      simp only [List.cons_append, List.append_assoc, List.nil_append]
      simp only [pVal]
      rw [skipWs_past hws (show isWs '\x7b' = false by decide)]
      obtain ⟨t0, hc0⟩ : ∃ t, ppField (i + 2) k v2 = '"' :: t :=
        ⟨escStr k.data ++ ('"' :: ':' :: ' ' :: ppVal (i + 2) v2), by
          simp [ppField]⟩
      rw [hc0] at h
      simp only [List.cons_append] at h
      simp [skipWs_nl_ind, hc0, skipWs_not (show isWs '"' = false by decide), h]

termination_by sizeOf v
theorem rtElems (x : JVal) (xs : JArr) (f i : Nat) (ws rest : List Char)
    (hf : jsizeA (JArr.cons x xs) ≤ f) (hws : AllWs ws) :
    pElems f (ws ++ (ppVal (i + 2) x ++ (ppElems (i + 2) xs ++
      ('\n' :: (ind i ++ (']' :: rest)))))) = some (.cons x xs, rest) := by
  obtain ⟨f2, rfl⟩ : ∃ f2, f = f2 + 1 := ⟨f - 1, by
    simp [jsizeA] at hf
    have := jsize_pos x
    omega⟩
  have hx : jsize x ≤ f2 := by
    simp [jsizeA] at hf
    omega
  cases xs with
  | nil =>
    have h1 := rtVal x f2 (i + 2) ws (ppElems (i + 2) JArr.nil ++
      ('\n' :: (ind i ++ (']' :: rest)))) hx hws
      (hnd_ppElems (i + 2) JArr.nil (ind i ++ (']' :: rest)))
    simp only [show ppElems (i + 2) JArr.nil = ([] : List Char) from by simp [ppElems],
      List.nil_append] at h1 ⊢
    simp only [pElems]
    simp [h1, skipWs_nl_ind i (']' :: rest), skipWs_not (show isWs ']' = false by decide)]
  | cons y ys =>
    have h1 := rtVal x f2 (i + 2) ws (ppElems (i + 2) (JArr.cons y ys) ++
      ('\n' :: (ind i ++ (']' :: rest)))) hx hws
      (hnd_ppElems (i + 2) (JArr.cons y ys) (ind i ++ (']' :: rest)))
    have hb2 : jsizeA (JArr.cons y ys) ≤ f2 := by
      simp [jsizeA] at hf ⊢
      omega
    have h2 := rtElems y ys f2 i ('\n' :: ind (i + 2)) rest hb2
      (allWs_cons (by decide) (allWs_ind (i + 2)))
    rw [List.cons_append] at h2
    rw [show ppElems (i + 2) (JArr.cons y ys) =
      ',' :: '\n' :: ind (i + 2) ++ ppVal (i + 2) y ++ ppElems (i + 2) ys from by
      simp [ppElems]] at h1 ⊢
    simp only [List.cons_append, List.append_assoc] at h1 ⊢
    simp only [pElems]
    simp [h1, skipWs_not (show isWs ',' = false by decide), h2]

termination_by 1 + sizeOf x + sizeOf xs
theorem rtFields (k : String) (v : JVal) (fs : JObj) (f i : Nat) (ws rest : List Char)
    (hf : jsizeO (JObj.cons k v fs) ≤ f) (hws : AllWs ws) :
    pFields f (ws ++ (ppField (i + 2) k v ++ (ppFields (i + 2) fs ++
      ('\n' :: (ind i ++ ('\x7d' :: rest)))))) = some (.cons k v fs, rest) := by
  obtain ⟨f2, rfl⟩ : ∃ f2, f = f2 + 1 := ⟨f - 1, by
    simp [jsizeO] at hf
    have := jsize_pos v
    omega⟩
  have hx : jsize v ≤ f2 := by
    simp [jsizeO] at hf
    omega
  rw [show ppField (i + 2) k v ++ (ppFields (i + 2) fs ++ ('\n' :: (ind i ++ ('\x7d' :: rest)))) =
    '"' :: (escStr k.data ++ ('"' :: ':' :: ' ' :: (ppVal (i + 2) v ++ (ppFields (i + 2) fs ++
      ('\n' :: (ind i ++ ('\x7d' :: rest))))))) from by
    simp [ppField, List.cons_append, List.append_assoc]]
  simp only [pFields]
  rw [skipWs_past hws (show isWs '"' = false by decide)]
  have hv := rtVal v f2 (i + 2) [' '] (ppFields (i + 2) fs ++ ('\n' :: (ind i ++ ('\x7d' :: rest)))) hx
    (allWs_cons (by decide) allWs_nil)
    (hnd_ppFields (i + 2) fs (ind i ++ ('\x7d' :: rest)))
  rw [show ([' '] : List Char) ++ (ppVal (i + 2) v ++ (ppFields (i + 2) fs ++
    ('\n' :: (ind i ++ ('\x7d' :: rest))))) =
    ' ' :: (ppVal (i + 2) v ++ (ppFields (i + 2) fs ++ ('\n' :: (ind i ++ ('\x7d' :: rest)))))
    from rfl] at hv
  cases fs with
  | nil =>
    simp only [show ppFields (i + 2) JObj.nil = ([] : List Char) from by simp [ppFields],
      List.nil_append] at hv ⊢
    simp [pStr_escape k.data, hv, skipWs_not (show isWs ':' = false by decide),
      skipWs_nl_ind i ('\x7d' :: rest), skipWs_not (show isWs '\x7d' = false by decide), mk_data]
  | cons k2 v2 fs2 =>
    have hb2 : jsizeO (JObj.cons k2 v2 fs2) ≤ f2 := by
      simp [jsizeO] at hf ⊢
      omega
    have h2 := rtFields k2 v2 fs2 f2 i ('\n' :: ind (i + 2)) rest hb2
      (allWs_cons (by decide) (allWs_ind (i + 2)))
    rw [List.cons_append] at h2
    rw [show ppFields (i + 2) (JObj.cons k2 v2 fs2) =
      ',' :: '\n' :: ind (i + 2) ++ ppField (i + 2) k2 v2 ++ ppFields (i + 2) fs2 from by
      simp [ppFields]] at hv ⊢
    simp only [List.cons_append, List.append_assoc] at hv ⊢
    simp [pStr_escape k.data, hv, skipWs_not (show isWs ':' = false by decide),
      skipWs_not (show isWs ',' = false by decide), h2, mk_data]

termination_by 1 + sizeOf v + sizeOf fs
end

/-- C9: for every collaborator result value on the success path, serializing
it into the single text content block (JSON.stringify with indent 2) and
parsing that text back as structured data yields a value structurally equal
to the original collaborator result. -/
theorem claim9_serialize_parse_roundtrip (v : JVal) :
    jsonParse (jsonStringify v) = some v := by
  unfold jsonParse jsonStringify
  have h := rtVal v ((ppVal 0 v).length + 1) 0 [] [] (jsize_le v 0) allWs_nil trivial
  rw [List.nil_append, List.append_nil] at h
  show (match pVal ((ppVal 0 v).length + 1) (ppVal 0 v) with
    | some (v2, rest) => if skipWs rest = [] then some v2 else none
    | none => none) = some v
  rw [h]
  simp [skipWs]
